import Mathlib

/-!
Shallow embedding of the qr-api-service repository: an HTTP API that drives a
headless browser against the Mini QR web application to produce styled QR code
images.  Two builds (generations) of the service exist: the generation-2 build
(src/api/server.js, identifier-addressed controls, download-and-read
extraction) and the generation-1 build (src/unnamed/part_000, label-addressed
controls, direct in-page capture).  Browser, page and filesystem interactions
are modelled by an effect trace produced alongside the result; the opaque
outside world (element presence, download directory contents, navigation
success) is an explicit environment record.
-/

/-- A JavaScript number as it appears in this code base: an integer or NaN
(NaN arises from parseInt on a non-numeric string). -/
inductive JsNumber
  | int (n : Int)
  | nan
deriving DecidableEq

/-- JS String(value) conversion for the numbers this service handles. -/
def JsNumber.toJsString : JsNumber → String
  | .int n => toString n
  | .nan => "NaN"

/-- One observable browser/filesystem interaction performed by the service. -/
inductive Effect
  | launch
  | launchFail
  | newPage
  | setViewport (w h : Nat)
  | goto (url : String)
  | waitForSelector (sel : String)
  | setValue (id val : String)
  | typeInto (sel val : String)
  | clickElem (id : String)
  | clickLabel (text : String)
  | clickPanel (idx : Nat)
  | sleep (ms : Nat)
  | mkdirTmp (p : String)
  | setDownloadBehavior (p : String)
  | readdir (p : String)
  | readFile (p : String)
  | unlink (p : String)
  | screenshot (ty : String)
  | queryExport
  | evalQuerySvg
  | closePage
deriving DecidableEq

/-- The bytes returned by a successful generation, tagged with how they were
produced: Buffer.from(s, utf-8) of DOM-serialized markup, an element
screenshot of a given image type, or a file read back from disk. -/
inductive Artifact
  | fromUtf8 (s : String)
  | raster (shotType : String) (bytes : List Nat)
  | fileBytes (bytes : List Nat)
deriving DecidableEq

/-- Process-wide mutable state: the cached browser handle (the module-level
browser variable, null when none), the number of live browser sessions, and a
counter supplying fresh handles. -/
structure SessionSt where
  browser : Option Nat
  liveSessions : Nat
  nextHandle : Nat
deriving DecidableEq

/-- State at process start: no browser launched. -/
def initialSt : SessionSt := { browser := none, liveSessions := 0, nextHandle := 0 }

/-- The configured Mini QR base URL (default fallback). -/
def MINI_QR_URL : String := "http://mini-qr:80"

/-- getBrowser from both builds: return the cached handle if live, otherwise
launch (success governed by the environment flag) and cache the new handle; a
failed launch leaves the cached handle null and propagates the error. -/
def getBrowser (launchOk : Bool) (st : SessionSt) :
    Except String Nat × SessionSt × List Effect :=
  match st.browser with
  | some h => (.ok h, st, [])
  | none =>
      if launchOk then
        (.ok st.nextHandle,
          { browser := some st.nextHandle
            liveSessions := st.liveSessions + 1
            nextHandle := st.nextHandle + 1 },
          [.launch])
      else
        (.error "Failed to launch the browser process", st, [.launchFail])

/-- The options object passed to generateQRCode; none is JS undefined. -/
structure Options where
  data : Option String
  logoUrl : Option String
  backgroundColor : Option String
  dotsColor : Option String
  cornersSquareColor : Option String
  cornersDotColor : Option String
  width : Option JsNumber
  height : Option JsNumber
  borderRadius : Option JsNumber
  margin : Option JsNumber
  imageMargin : Option JsNumber
  dotsType : Option String
  cornersSquareType : Option String
  cornersDotType : Option String
  errorCorrectionLevel : Option String
  format : Option String
deriving DecidableEq

/-- An Options value with every field absent (JS empty object). -/
def emptyOptions : Options :=
  { data := none, logoUrl := none, backgroundColor := none, dotsColor := none
    cornersSquareColor := none, cornersDotColor := none
    width := none, height := none, borderRadius := none, margin := none
    imageMargin := none
    dotsType := none, cornersSquareType := none, cornersDotType := none
    errorCorrectionLevel := none, format := none }

/-- JS truthiness of an optional string: undefined and the empty string are
falsy, every other string is truthy. -/
def jsTruthyS (v : Option String) : Bool :=
  match v with
  | some s => decide (s ≠ "")
  | none => false

/-- JS (v || dflt) on an optional string. -/
def jsOrS (v : Option String) (dflt : String) : String :=
  match v with
  | some s => if s ≠ "" then s else dflt
  | none => dflt

/-- The destructured options with their defaults, exactly as both builds
destructure the options argument of generateQRCode (a default applies only
when the field is undefined). -/
structure NormOpts where
  data : Option String
  logoUrl : Option String
  backgroundColor : String
  dotsColor : String
  cornersSquareColor : Option String
  cornersDotColor : Option String
  width : JsNumber
  height : JsNumber
  borderRadius : JsNumber
  margin : JsNumber
  imageMargin : JsNumber
  dotsType : String
  cornersSquareType : String
  cornersDotType : String
  errorCorrectionLevel : String
  format : String
deriving DecidableEq

/-- The destructuring at the head of generateQRCode (identical in both
builds). -/
def destructure (o : Options) : NormOpts :=
  { data := o.data
    logoUrl := o.logoUrl
    backgroundColor := o.backgroundColor.getD "#ffffff"
    dotsColor := o.dotsColor.getD "#000000"
    cornersSquareColor := o.cornersSquareColor
    cornersDotColor := o.cornersDotColor
    width := o.width.getD (.int 300)
    height := o.height.getD (.int 300)
    borderRadius := o.borderRadius.getD (.int 0)
    margin := o.margin.getD (.int 10)
    imageMargin := o.imageMargin.getD (.int 0)
    dotsType := o.dotsType.getD "square"
    cornersSquareType := o.cornersSquareType.getD "square"
    cornersDotType := o.cornersDotType.getD "square"
    errorCorrectionLevel := o.errorCorrectionLevel.getD "M"
    format := o.format.getD "png" }

/-- Whether an Except value is a success. -/
def exceptOk {ε α : Type} : Except ε α → Bool
  | .ok _ => true
  | .error _ => false

/-- Whether a character list begins with the given chunk. -/
def startsWithChars : List Char → List Char → Bool
  | _, [] => true
  | [], _ :: _ => false
  | c :: cs, d :: ds => c = d && startsWithChars cs ds

/-- JS String.startsWith (also Lean String.startsWith), over characters. -/
def startsWithJs (s chunk : String) : Bool :=
  startsWithChars s.toList chunk.toList

/-- JS String.endsWith (also Lean String.endsWith), over characters. -/
def endsWithJs (s chunk : String) : Bool :=
  startsWithChars s.toList.reverse chunk.toList.reverse

/-- parseIntJS helper: leading decimal digits of a character list. -/
def takeDigits : List Char → List Char
  | [] => []
  | c :: cs => if c.isDigit then c :: takeDigits cs else []

/-- Whether a character is a hexadecimal digit. -/
def isHexDigitChar (c : Char) : Bool :=
  c.isDigit || ('a' ≤ c && c ≤ 'f') || ('A' ≤ c && c ≤ 'F')

/-- parseIntJS helper: leading hexadecimal digits of a character list. -/
def takeHexDigits : List Char → List Char
  | [] => []
  | c :: cs => if isHexDigitChar c then c :: takeHexDigits cs else []

/-- Numeric value of a (hexadecimal) digit character. -/
def hexVal (c : Char) : Nat :=
  if c.isDigit then c.toNat - 48
  else if 'a' ≤ c && c ≤ 'f' then c.toNat - 87
  else c.toNat - 55

/-- Value of a digit string in the given base. -/
def digitsToNat (base : Nat) (ds : List Char) : Nat :=
  ds.foldl (fun a c => a * base + hexVal c) 0

/-- JS parseInt(s) with no explicit radix: skip leading whitespace, read an
optional sign, detect a 0x/0X hexadecimal marker, take the longest run of
digits, and yield NaN when that run is empty. -/
def parseIntJS (s : String) : JsNumber :=
  let cs := s.toList.dropWhile Char.isWhitespace
  let signSplit :=
    match cs with
    | '-' :: rest => (true, rest)
    | '+' :: rest => (false, rest)
    | _ => (false, cs)
  let neg := signSplit.1
  match signSplit.2 with
  | '0' :: 'x' :: rest =>
      let ds := takeHexDigits rest
      if ds.isEmpty then JsNumber.nan
      else if neg then .int (-(digitsToNat 16 ds : Int)) else .int (digitsToNat 16 ds)
  | '0' :: 'X' :: rest =>
      let ds := takeHexDigits rest
      if ds.isEmpty then JsNumber.nan
      else if neg then .int (-(digitsToNat 16 ds : Int)) else .int (digitsToNat 16 ds)
  | other =>
      let ds := takeDigits other
      if ds.isEmpty then JsNumber.nan
      else if neg then .int (-(digitsToNat 10 ds : Int)) else .int (digitsToNat 10 ds)

/-- The raw query string of a GET /generate request; none is an absent
parameter, strings arrive unparsed. -/
structure Query where
  data : Option String
  logoUrl : Option String
  backgroundColor : Option String
  dotsColor : Option String
  cornersSquareColor : Option String
  cornersDotColor : Option String
  width : Option String
  height : Option String
  borderRadius : Option String
  margin : Option String
  imageMargin : Option String
  dotsType : Option String
  cornersSquareType : Option String
  cornersDotType : Option String
  errorCorrectionLevel : Option String
  format : Option String
deriving DecidableEq

/-- A Query with every parameter absent. -/
def emptyQuery : Query :=
  { data := none, logoUrl := none, backgroundColor := none, dotsColor := none
    cornersSquareColor := none, cornersDotColor := none
    width := none, height := none, borderRadius := none, margin := none
    imageMargin := none
    dotsType := none, cornersSquareType := none, cornersDotType := none
    errorCorrectionLevel := none, format := none }

/-- One numeric query parameter, as the GET handler builds it: parseInt of the
raw value when the raw string is truthy (present and non-empty), undefined
otherwise. -/
def numParam (raw : Option String) : Option JsNumber :=
  match raw with
  | some s => if s ≠ "" then some (parseIntJS s) else none
  | none => none

/-- The options object the GET /generate handler constructs from the query
(identical in both builds). -/
def queryToOptions (q : Query) : Options :=
  { data := q.data
    logoUrl := q.logoUrl
    backgroundColor := q.backgroundColor
    dotsColor := q.dotsColor
    cornersSquareColor := q.cornersSquareColor
    cornersDotColor := q.cornersDotColor
    width := numParam q.width
    height := numParam q.height
    borderRadius := numParam q.borderRadius
    margin := numParam q.margin
    imageMargin := numParam q.imageMargin
    dotsType := q.dotsType
    cornersSquareType := q.cornersSquareType
    cornersDotType := q.cornersDotType
    errorCorrectionLevel := q.errorCorrectionLevel
    format := q.format }

/-- Body of an HTTP response: raw artifact bytes or a JSON error object with
a single error field holding the message. -/
inductive RespBody
  | payload (a : Artifact)
  | jsonError (msg : String)
deriving DecidableEq

/-- The observable parts of an HTTP response produced by the handlers. -/
structure HttpResponse where
  status : Nat
  contentType : Option String
  contentDisposition : Option String
  body : RespBody
deriving DecidableEq

/-- Content type computed by both /generate handlers from the format. -/
def contentTypeFor (fmt : String) : String :=
  if fmt = "svg" then "image/svg+xml" else "image/" ++ fmt

namespace Gen2

/-- Valid option values in src/api/server.js (matching mini-qr HTML ids). -/
def DOT_TYPES : List String :=
  ["dots", "rounded", "classy", "classy-rounded", "square", "extra-rounded"]

/-- Valid corner square types in src/api/server.js. -/
def CORNER_SQUARE_TYPES : List String := ["dot", "square", "extra-rounded"]

/-- Valid corner dot types in src/api/server.js. -/
def CORNER_DOT_TYPES : List String := ["dot", "square"]

/-- Valid error correction levels in src/api/server.js. -/
def ERROR_CORRECTION_LEVELS : List String := ["L", "M", "Q", "H"]

/-- Environment oracle for the generation-2 build: launch and navigation
outcomes, element presence by id, and the download directory contents after
the export click settles, plus the outcome of reading the downloaded file. -/
structure Env where
  launchOk : Bool
  gotoOk : Bool
  waitReadyOk : Bool
  hasElem : String → Bool
  files : List String
  readOk : Bool
  fileBytes : List Nat

/-- setInputById: silent no-op when the element is absent, otherwise set the
value and dispatch input/change events. -/
def setInputById (env : Env) (elemId v : String) : List Effect :=
  if env.hasElem elemId then [.setValue elemId v] else []

/-- setColorById: same observable behavior as setInputById. -/
def setColorById (env : Env) (elemId c : String) : List Effect :=
  if env.hasElem elemId then [.setValue elemId c] else []

/-- selectRadioById: click the radio when present, silent no-op otherwise. -/
def selectRadioById (env : Env) (elemId : String) : List Effect :=
  if env.hasElem elemId then [.clickElem elemId] else []

/-- The scoped download directory. -/
def downloadPath : String := "/tmp/qr-downloads"

/-- The export control clicked for each requested format. -/
def buttonId (fmt : String) : String :=
  if fmt = "svg" then "download-qr-image-button-svg"
  else if fmt = "jpeg" then "download-qr-image-button-jpg"
  else "download-qr-image-button-png"

/-- The form-binding phase of the generation-2 generateQRCode: the exact
sequence of input, color and radio interactions, with each enum interaction
guarded by truthiness and membership in the recognized variant list. -/
def bindForm (env : Env) (n : NormOpts) : List Effect :=
  setInputById env "data" (n.data.getD "")
  ++ (if jsTruthyS n.logoUrl then setInputById env "image-url" (n.logoUrl.getD "") else [])
  ++ setColorById env "background-color" n.backgroundColor
  ++ setColorById env "dots-color" n.dotsColor
  ++ (if jsTruthyS n.cornersSquareColor then
        setColorById env "corners-square-color" (n.cornersSquareColor.getD "") else [])
  ++ (if jsTruthyS n.cornersDotColor then
        setColorById env "corners-dot-color" (n.cornersDotColor.getD "") else [])
  ++ setInputById env "width" n.width.toJsString
  ++ setInputById env "height" n.height.toJsString
  ++ setInputById env "border-radius" n.borderRadius.toJsString
  ++ setInputById env "margin" n.margin.toJsString
  ++ setInputById env "image-margin" n.imageMargin.toJsString
  ++ (if n.dotsType ≠ "" ∧ n.dotsType ∈ DOT_TYPES then
        selectRadioById env ("dotsOptionsType-" ++ n.dotsType) else [])
  ++ (if n.cornersSquareType ≠ "" ∧ n.cornersSquareType ∈ CORNER_SQUARE_TYPES then
        selectRadioById env ("cornersSquareOptionsType-" ++ n.cornersSquareType) else [])
  ++ (if n.cornersDotType ≠ "" ∧ n.cornersDotType ∈ CORNER_DOT_TYPES then
        selectRadioById env ("cornersDotOptionsType-" ++ n.cornersDotType) else [])
  ++ (if n.errorCorrectionLevel ≠ "" ∧ n.errorCorrectionLevel ∈ ERROR_CORRECTION_LEVELS then
        selectRadioById env ("errorCorrectionLevel-" ++ n.errorCorrectionLevel) else [])

/-- The try block of the generation-2 generateQRCode: navigate, wait for the
readiness marker, bind the form, settle, configure downloads, click the
per-format export control, settle again, scan the download directory for a
file with the matching extension (jpeg maps to jpg), read it and delete it. -/
def tryBody (env : Env) (n : NormOpts) : Except String Artifact × List Effect :=
  let tr0 := [Effect.setViewport 1280 900, Effect.goto MINI_QR_URL]
  if !env.gotoOk then (.error "Navigation timeout of 30000 ms exceeded", tr0)
  else
    let tr1 := tr0 ++ [Effect.waitForSelector "#data"]
    if !env.waitReadyOk then
      (.error "Waiting for selector #data failed: 10000 ms exceeded", tr1)
    else
      let tr2 := tr1 ++ bindForm env n
        ++ [Effect.sleep 1000, Effect.mkdirTmp downloadPath,
            Effect.setDownloadBehavior downloadPath]
      let bId := buttonId n.format
      if !env.hasElem bId then
        (.error ("No element found for selector: #" ++ bId), tr2)
      else
        let tr3 := tr2 ++ [Effect.clickElem bId, Effect.sleep 2000,
                           Effect.readdir downloadPath]
        let ext := if n.format = "jpeg" then "jpg" else n.format
        match env.files.find? (fun f => endsWithJs f ("." ++ ext)) with
        | none => (.error "Download failed - no file found", tr3)
        | some f =>
            let fp := downloadPath ++ "/" ++ f
            if env.readOk then
              (.ok (.fileBytes env.fileBytes), tr3 ++ [Effect.readFile fp, Effect.unlink fp])
            else
              (.error ("read failed: " ++ fp), tr3 ++ [Effect.readFile fp])

/-- generateQRCode of src/api/server.js: reject falsy data before any browser
interaction, acquire the shared browser, open a page, run the try block, and
close the page on every exit path (the finally clause). -/
def generateQRCode (env : Env) (o : Options) (st : SessionSt) :
    Except String Artifact × SessionSt × List Effect :=
  let n := destructure o
  if !jsTruthyS n.data then (.error "Data to encode is required", st, [])
  else
    match getBrowser env.launchOk st with
    | (.error e, st1, tr) => (.error e, st1, tr)
    | (.ok _, st1, tr) =>
        let r := tryBody env n
        (r.1, st1, tr ++ [Effect.newPage] ++ r.2 ++ [Effect.closePage])

/-- The POST /generate handler of src/api/server.js. -/
def postGenerate (env : Env) (body : Options) (st : SessionSt) :
    HttpResponse × SessionSt :=
  match generateQRCode env body st with
  | (.ok art, st1, _) =>
      let fmt := jsOrS body.format "png"
      ({ status := 200
         contentType := some (contentTypeFor fmt)
         contentDisposition := some ("attachment; filename=\"qrcode." ++ fmt ++ "\"")
         body := .payload art }, st1)
  | (.error e, st1, _) =>
      ({ status := 500, contentType := some "application/json"
         contentDisposition := none, body := .jsonError e }, st1)

/-- The GET /generate handler of src/api/server.js. -/
def getGenerate (env : Env) (q : Query) (st : SessionSt) :
    HttpResponse × SessionSt :=
  let options := queryToOptions q
  match generateQRCode env options st with
  | (.ok art, st1, _) =>
      ({ status := 200
         contentType := some (contentTypeFor (jsOrS options.format "png"))
         contentDisposition := none
         body := .payload art }, st1)
  | (.error e, st1, _) =>
      ({ status := 500, contentType := some "application/json"
         contentDisposition := none, body := .jsonError e }, st1)

/-- Sequential processing of a list of generation requests, accumulating the
session state and the full effect trace. -/
def runSeq (env : Env) : List Options → SessionSt → SessionSt × List Effect
  | [], st => (st, [])
  | o :: os, st =>
      let r := generateQRCode env o st
      let rest := runSeq env os r.2.1
      (rest.1, r.2.2 ++ rest.2)

end Gen2

namespace Gen1

/-- Dot types recognized by src/unnamed/part_000. -/
def DOT_TYPES : List String :=
  ["square", "rounded", "dots", "classy", "classy-rounded", "extra-rounded"]

/-- Corner square types recognized by src/unnamed/part_000. -/
def CORNER_SQUARE_TYPES : List String :=
  ["square", "rounded", "dots", "classy", "classy-rounded", "extra-rounded"]

/-- Corner dot types recognized by src/unnamed/part_000. -/
def CORNER_DOT_TYPES : List String := ["square", "rounded", "dot"]

/-- The ERROR_CORRECTION_LEVELS dictionary of src/unnamed/part_000: key to
the label text clicked in the UI; none models an undefined lookup. -/
def errorCorrectionLabel : String → Option String
  | "L" => some "Low (7%)"
  | "M" => some "Medium (15%)"
  | "Q" => some "High (25%)"
  | "H" => some "Highest (30%)"
  | _ => none

/-- Environment oracle for the generation-1 build: launch and navigation
outcomes, whether each label-addressed lookup chain finds its control, the
trimmed text contents of the label elements (for radio selection by exact
text), the number of closed accordion panels, the presence of the export
container, the serialized vector markup when present, and screenshot bytes. -/
structure Env where
  launchOk : Bool
  gotoOk : Bool
  waitOk : Bool
  colorHit : String → Bool
  textHit : String → Bool
  labelTexts : List String
  closedPanels : Nat
  qrContainerPresent : Bool
  svgContent : Option String
  shotBytes : List Nat

/-- setColorInput: find the first label containing the text, locate the color
input in its layout group, set it and dispatch events; silent no-op when the
lookup chain fails. -/
def setColorInput (env : Env) (labelText c : String) : List Effect :=
  if env.colorHit labelText then [.setValue labelText c] else []

/-- setTextInputByLabel: find the first label containing the text, locate the
sibling text input, triple-click to select all and type the value; silent
no-op when the lookup chain fails. -/
def setTextInputByLabel (env : Env) (labelText v : String) : List Effect :=
  if env.textHit labelText then [.typeInto labelText v] else []

/-- selectRadioOption: click the first label whose trimmed text equals the
option value; silent no-op when no label matches. -/
def selectRadioOption (env : Env) (v : String) : List Effect :=
  if v ∈ env.labelTexts then [.clickLabel v] else []

/-- Expansion of the closed accordion panels, one click and one 200 ms settle
pause per closed panel. -/
def expandPanels : Nat → List Effect
  | 0 => []
  | k + 1 => expandPanels k ++ [.clickPanel k, .sleep 200]

/-- The form-binding phase of the generation-1 generateQRCode (after the data
field is typed and the panels are expanded). -/
def bindForm (env : Env) (n : NormOpts) : List Effect :=
  (if jsTruthyS n.logoUrl then
      setTextInputByLabel env "Logo image URL" (n.logoUrl.getD "") else [])
  ++ setColorInput env "Background color" n.backgroundColor
  ++ setColorInput env "Dots color" n.dotsColor
  ++ (if jsTruthyS n.cornersSquareColor then
        setColorInput env "Corners Square color" (n.cornersSquareColor.getD "") else [])
  ++ (if jsTruthyS n.cornersDotColor then
        setColorInput env "Corners Dot color" (n.cornersDotColor.getD "") else [])
  ++ setTextInputByLabel env "Width" n.width.toJsString
  ++ setTextInputByLabel env "Height" n.height.toJsString
  ++ setTextInputByLabel env "Border radius" n.borderRadius.toJsString
  ++ setTextInputByLabel env "Margin" n.margin.toJsString
  ++ setTextInputByLabel env "Image margin" n.imageMargin.toJsString
  ++ (if n.dotsType ≠ "" ∧ n.dotsType ∈ DOT_TYPES then
        selectRadioOption env n.dotsType else [])
  ++ (if n.cornersSquareType ≠ "" ∧ n.cornersSquareType ∈ CORNER_SQUARE_TYPES then
        selectRadioOption env n.cornersSquareType else [])
  ++ (if n.cornersDotType ≠ "" ∧ n.cornersDotType ∈ CORNER_DOT_TYPES then
        selectRadioOption env n.cornersDotType else [])
  ++ (if n.errorCorrectionLevel ≠ "" then
        match errorCorrectionLabel n.errorCorrectionLevel with
        | some lbl => selectRadioOption env lbl
        | none => []
      else [])

/-- The try block of the generation-1 generateQRCode: navigate, wait for the
text input, type the data, expand the accordion panels, bind the form, settle
500 ms, locate the export container, then either serialize the vector markup
from the DOM (svg) or screenshot the container (png as png, everything else
as jpeg). -/
def tryBody (env : Env) (n : NormOpts) : Except String Artifact × List Effect :=
  let tr0 := [Effect.setViewport 1280 900, Effect.goto MINI_QR_URL]
  if !env.gotoOk then (.error "Navigation timeout of 30000 ms exceeded", tr0)
  else
    let tr1 := tr0 ++ [Effect.waitForSelector "input.text-input"]
    if !env.waitOk then
      (.error "Waiting for selector input.text-input failed: 10000 ms exceeded", tr1)
    else
      let tr2 := tr1 ++ [Effect.typeInto "input.text-input" (n.data.getD "")]
        ++ expandPanels env.closedPanels
        ++ bindForm env n
        ++ [Effect.sleep 500, Effect.queryExport]
      if !env.qrContainerPresent then (.error "QR code element not found", tr2)
      else if n.format = "svg" then
        match env.svgContent with
        | none => (.error "SVG element not found", tr2 ++ [Effect.evalQuerySvg])
        | some s => (.ok (.fromUtf8 s), tr2 ++ [Effect.evalQuerySvg])
      else
        let ty := if n.format = "png" then "png" else "jpeg"
        (.ok (.raster ty env.shotBytes), tr2 ++ [Effect.screenshot ty])

/-- generateQRCode of src/unnamed/part_000: reject falsy data before any
browser interaction, acquire the shared browser, open a page, run the try
block, and close the page on every exit path (the finally clause). -/
def generateQRCode (env : Env) (o : Options) (st : SessionSt) :
    Except String Artifact × SessionSt × List Effect :=
  let n := destructure o
  if !jsTruthyS n.data then (.error "Data to encode is required", st, [])
  else
    match getBrowser env.launchOk st with
    | (.error e, st1, tr) => (.error e, st1, tr)
    | (.ok _, st1, tr) =>
        let r := tryBody env n
        (r.1, st1, tr ++ [Effect.newPage] ++ r.2 ++ [Effect.closePage])

/-- The POST /generate handler of src/unnamed/part_000. -/
def postGenerate (env : Env) (body : Options) (st : SessionSt) :
    HttpResponse × SessionSt :=
  match generateQRCode env body st with
  | (.ok art, st1, _) =>
      let fmt := jsOrS body.format "png"
      ({ status := 200
         contentType := some (contentTypeFor fmt)
         contentDisposition := some ("attachment; filename=\"qrcode." ++ fmt ++ "\"")
         body := .payload art }, st1)
  | (.error e, st1, _) =>
      ({ status := 500, contentType := some "application/json"
         contentDisposition := none, body := .jsonError e }, st1)

/-- The GET /generate handler of src/unnamed/part_000. -/
def getGenerate (env : Env) (q : Query) (st : SessionSt) :
    HttpResponse × SessionSt :=
  let options := queryToOptions q
  match generateQRCode env options st with
  | (.ok art, st1, _) =>
      ({ status := 200
         contentType := some (contentTypeFor (jsOrS options.format "png"))
         contentDisposition := none
         body := .payload art }, st1)
  | (.error e, st1, _) =>
      ({ status := 500, contentType := some "application/json"
         contentDisposition := none, body := .jsonError e }, st1)

end Gen1

/-- Whether an effect opens a per-request browsing context. -/
def isPageOpen : Effect → Bool
  | .newPage => true
  | _ => false

/-- Whether an effect closes a per-request browsing context. -/
def isPageClose : Effect → Bool
  | .closePage => true
  | _ => false

/-- Number of page-open effects in a trace. -/
def newPageCount (tr : List Effect) : Nat := tr.countP isPageOpen

/-- Number of page-close effects in a trace. -/
def closePageCount (tr : List Effect) : Nat := tr.countP isPageClose

/-- Whether an effect is a click on one of the four enum radio groups of the
generation-2 UI (dot type, corner square type, corner dot type, error
correction level). -/
def isEnumRadioClick2 : Effect → Bool
  | .clickElem i =>
      startsWithJs i "dotsOptionsType-" || startsWithJs i "cornersSquareOptionsType-"
        || startsWithJs i "cornersDotOptionsType-" || startsWithJs i "errorCorrectionLevel-"
  | _ => false

/-- Whether an effect is a label click; in the generation-1 embedding these
arise only from radio-option selection for the four enum fields. -/
def isLabelClick : Effect → Bool
  | .clickLabel _ => true
  | _ => false

/-- A fully cooperative generation-2 environment: launch, navigation and
waits succeed, every element is present, the download directory holds one
png file, and reads succeed. -/
def env2demo : Gen2.Env :=
  { launchOk := true, gotoOk := true, waitReadyOk := true
    hasElem := fun _ => true
    files := ["qr-code.png"], readOk := true, fileBytes := [137, 80, 78, 71] }

/-- A fully cooperative generation-1 environment. -/
def env1demo : Gen1.Env :=
  { launchOk := true, gotoOk := true, waitOk := true
    colorHit := fun _ => true, textHit := fun _ => true
    labelTexts := ["square", "rounded", "dots", "classy", "classy-rounded",
                   "extra-rounded", "dot", "Low (7%)", "Medium (15%)",
                   "High (25%)", "Highest (30%)"]
    closedPanels := 2, qrContainerPresent := true
    svgContent := some "<svg data-v=\"1\"></svg>", shotBytes := [255, 216] }

/-- A minimal valid request: only the data field is supplied. -/
def oDemo : Options := { emptyOptions with data := some "https://example.com" }

instance {e a : Type} [DecidableEq e] [DecidableEq a] : DecidableEq (Except e a) :=
  fun x y =>
    match x, y with
    | .ok u, .ok v =>
        if h : u = v then .isTrue (by rw [h]) else .isFalse (by simp [h])
    | .error u, .error v =>
        if h : u = v then .isTrue (by rw [h]) else .isFalse (by simp [h])
    | .ok _, .error _ => .isFalse (by simp)
    | .error _, .ok _ => .isFalse (by simp)


/-- Invariant relating the live-session count to the cached browser handle. -/
def goodSt (st : SessionSt) : Prop :=
  st.liveSessions = (if st.browser.isSome then 1 else 0)

theorem goodSt_initial : goodSt initialSt := rfl

/-- Exhaustive description of getBrowser: cached-handle hit, successful lazy
launch, or failed launch leaving the cache null. -/
theorem getBrowser_cases (lk : Bool) (st : SessionSt) :
    (∃ h, st.browser = some h ∧ getBrowser lk st = (.ok h, st, []))
    ∨ (st.browser = none ∧ lk = true ∧
        getBrowser lk st = (.ok st.nextHandle,
          { browser := some st.nextHandle, liveSessions := st.liveSessions + 1
            nextHandle := st.nextHandle + 1 }, [.launch]))
    ∨ (st.browser = none ∧ lk = false ∧
        getBrowser lk st =
          (.error "Failed to launch the browser process", st, [.launchFail])) := by
  rcases hb : st.browser with _ | h
  · cases lk
    · exact Or.inr (Or.inr ⟨rfl, rfl, by simp [getBrowser, hb]⟩)
    · exact Or.inr (Or.inl ⟨rfl, rfl, by simp [getBrowser, hb]⟩)
  · exact Or.inl ⟨h, rfl, by simp [getBrowser, hb]⟩

theorem getBrowser_good (lk : Bool) (st : SessionSt) (hg : goodSt st) :
    goodSt (getBrowser lk st).2.1 := by
  rcases getBrowser_cases lk st with ⟨h, _, he⟩ | ⟨hb, _, he⟩ | ⟨hb, _, he⟩ <;>
    rw [he] <;> simp_all [goodSt]

theorem getBrowser_mono (lk : Bool) (st : SessionSt) (h : Nat)
    (hb : st.browser = some h) : (getBrowser lk st).2.1.browser = some h := by
  simp [getBrowser, hb]

theorem getBrowser_launch_some (st : SessionSt) :
    (getBrowser true st).2.1.browser.isSome = true := by
  rcases hb : st.browser with _ | h <;> simp [getBrowser, hb]

theorem getBrowser_no_page (lk : Bool) (st : SessionSt) :
    ∀ e ∈ (getBrowser lk st).2.2, isPageOpen e = false ∧ isPageClose e = false := by
  rcases getBrowser_cases lk st with ⟨h, _, he⟩ | ⟨_, _, he⟩ | ⟨_, _, he⟩ <;>
    rw [he] <;> intro e he' <;> simp at he' <;> subst he' <;> exact ⟨rfl, rfl⟩

theorem Gen2.mem_setInputById {env : Gen2.Env} {i v : String} {e : Effect}
    (h : e ∈ Gen2.setInputById env i v) : e = .setValue i v := by
  unfold Gen2.setInputById at h
  split at h <;> simp_all

theorem Gen2.mem_setColorById {env : Gen2.Env} {i v : String} {e : Effect}
    (h : e ∈ Gen2.setColorById env i v) : e = .setValue i v := by
  unfold Gen2.setColorById at h
  split at h <;> simp_all

theorem Gen2.mem_selectRadioById {env : Gen2.Env} {i : String} {e : Effect}
    (h : e ∈ Gen2.selectRadioById env i) : e = .clickElem i := by
  unfold Gen2.selectRadioById at h
  split at h <;> simp_all

/-- Every effect of the generation-2 form binder is a value assignment or a
radio click. -/
theorem Gen2.bindForm_mem {env : Gen2.Env} {n : NormOpts} {e : Effect}
    (h : e ∈ Gen2.bindForm env n) :
    (∃ i v, e = .setValue i v) ∨ (∃ i, e = .clickElem i) := by
  unfold Gen2.bindForm at h
  simp only [List.mem_append] at h
  rcases h with ((((((((((((((h | h) | h) | h) | h) | h) | h) | h) | h) | h) | h) | h) | h) | h) | h)
  all_goals first
    | (exact Or.inl ⟨_, _, Gen2.mem_setInputById h⟩)
    | (exact Or.inl ⟨_, _, Gen2.mem_setColorById h⟩)
    | (split at h
       · first
         | (exact Or.inl ⟨_, _, Gen2.mem_setInputById h⟩)
         | (exact Or.inl ⟨_, _, Gen2.mem_setColorById h⟩)
         | (exact Or.inr ⟨_, Gen2.mem_selectRadioById h⟩)
       · simp at h)

/-- With all four enum values outside their recognized variant lists, the
generation-2 form binder performs only value assignments: no radio click. -/
theorem Gen2.bindForm_no_radio {env : Gen2.Env} {n : NormOpts} {e : Effect}
    (h1 : n.dotsType ∉ Gen2.DOT_TYPES)
    (h2 : n.cornersSquareType ∉ Gen2.CORNER_SQUARE_TYPES)
    (h3 : n.cornersDotType ∉ Gen2.CORNER_DOT_TYPES)
    (h4 : n.errorCorrectionLevel ∉ Gen2.ERROR_CORRECTION_LEVELS)
    (h : e ∈ Gen2.bindForm env n) :
    ∃ i v, e = .setValue i v := by
  have e1 : ¬(n.dotsType ≠ "" ∧ n.dotsType ∈ Gen2.DOT_TYPES) := fun hc => h1 hc.2
  have e2 : ¬(n.cornersSquareType ≠ "" ∧ n.cornersSquareType ∈ Gen2.CORNER_SQUARE_TYPES) :=
    fun hc => h2 hc.2
  have e3 : ¬(n.cornersDotType ≠ "" ∧ n.cornersDotType ∈ Gen2.CORNER_DOT_TYPES) :=
    fun hc => h3 hc.2
  have e4 : ¬(n.errorCorrectionLevel ≠ "" ∧ n.errorCorrectionLevel ∈ Gen2.ERROR_CORRECTION_LEVELS) :=
    fun hc => h4 hc.2
  unfold Gen2.bindForm at h
  rw [if_neg e1, if_neg e2, if_neg e3, if_neg e4] at h
  simp only [List.mem_append, List.append_nil, List.not_mem_nil, or_false] at h
  rcases h with ((((((((((h | h) | h) | h) | h) | h) | h) | h) | h) | h) | h)
  all_goals first
    | (exact ⟨_, _, Gen2.mem_setInputById h⟩)
    | (exact ⟨_, _, Gen2.mem_setColorById h⟩)
    | (split at h
       · first
         | (exact ⟨_, _, Gen2.mem_setInputById h⟩)
         | (exact ⟨_, _, Gen2.mem_setColorById h⟩)
       · simp at h)

theorem Gen1.mem_setColorInput {env : Gen1.Env} {l v : String} {e : Effect}
    (h : e ∈ Gen1.setColorInput env l v) : e = .setValue l v := by
  unfold Gen1.setColorInput at h
  split at h <;> simp_all

theorem Gen1.mem_setTextInputByLabel {env : Gen1.Env} {l v : String} {e : Effect}
    (h : e ∈ Gen1.setTextInputByLabel env l v) : e = .typeInto l v := by
  unfold Gen1.setTextInputByLabel at h
  split at h <;> simp_all

theorem Gen1.mem_selectRadioOption {env : Gen1.Env} {v : String} {e : Effect}
    (h : e ∈ Gen1.selectRadioOption env v) : e = .clickLabel v := by
  unfold Gen1.selectRadioOption at h
  split at h <;> simp_all

theorem Gen1.mem_expandPanels {k : Nat} {e : Effect}
    (h : e ∈ Gen1.expandPanels k) : (∃ i, e = .clickPanel i) ∨ e = .sleep 200 := by
  induction k with
  | zero => simp [Gen1.expandPanels] at h
  | succ m ih =>
      unfold Gen1.expandPanels at h
      simp only [List.mem_append] at h
      rcases h with h | h
      · exact ih h
      · simp at h
        rcases h with h | h
        · exact Or.inl ⟨m, h⟩
        · exact Or.inr h

/-- Every effect of the generation-1 form binder is a value assignment, a
typed input, or a label click. -/
theorem Gen1.bindForm_mem_g1 {env : Gen1.Env} {n : NormOpts} {e : Effect}
    (h : e ∈ Gen1.bindForm env n) :
    (∃ l v, e = .setValue l v) ∨ (∃ l v, e = .typeInto l v) ∨ (∃ l, e = .clickLabel l) := by
  unfold Gen1.bindForm at h
  simp only [List.mem_append] at h
  rcases h with (((((((((((((h | h) | h) | h) | h) | h) | h) | h) | h) | h) | h) | h) | h) | h)
  all_goals first
    | (exact Or.inl ⟨_, _, Gen1.mem_setColorInput h⟩)
    | (exact Or.inr (Or.inl ⟨_, _, Gen1.mem_setTextInputByLabel h⟩))
    | (exact Or.inr (Or.inr ⟨_, Gen1.mem_selectRadioOption h⟩))
    | (split at h
       · first
         | (exact Or.inl ⟨_, _, Gen1.mem_setColorInput h⟩)
         | (exact Or.inr (Or.inl ⟨_, _, Gen1.mem_setTextInputByLabel h⟩))
         | (exact Or.inr (Or.inr ⟨_, Gen1.mem_selectRadioOption h⟩))
         | (split at h
            · exact Or.inr (Or.inr ⟨_, Gen1.mem_selectRadioOption h⟩)
            · simp at h)
       · simp at h)

theorem all_mem_append {P : Effect → Prop} {l1 l2 : List Effect}
    (h1 : ∀ e ∈ l1, P e) (h2 : ∀ e ∈ l2, P e) : ∀ e ∈ l1 ++ l2, P e := by
  intro e he
  rcases List.mem_append.mp he with h | h
  · exact h1 e h
  · exact h2 e h

/-- With all four enum values outside their recognized variant lists (the
error-correction lookup returning undefined), the generation-1 form binder
performs no label click. -/
theorem Gen1.bindForm_no_label {env : Gen1.Env} {n : NormOpts}
    (h1 : n.dotsType ∉ Gen1.DOT_TYPES)
    (h2 : n.cornersSquareType ∉ Gen1.CORNER_SQUARE_TYPES)
    (h3 : n.cornersDotType ∉ Gen1.CORNER_DOT_TYPES)
    (h4 : Gen1.errorCorrectionLabel n.errorCorrectionLevel = none) :
    ∀ e ∈ Gen1.bindForm env n,
      (∃ l v, e = .setValue l v) ∨ (∃ l v, e = .typeInto l v) := by
  have e1 : ¬(n.dotsType ≠ "" ∧ n.dotsType ∈ Gen1.DOT_TYPES) := fun hc => h1 hc.2
  have e2 : ¬(n.cornersSquareType ≠ "" ∧ n.cornersSquareType ∈ Gen1.CORNER_SQUARE_TYPES) :=
    fun hc => h2 hc.2
  have e3 : ¬(n.cornersDotType ≠ "" ∧ n.cornersDotType ∈ Gen1.CORNER_DOT_TYPES) :=
    fun hc => h3 hc.2
  unfold Gen1.bindForm
  rw [if_neg e1, if_neg e2, if_neg e3]
  simp only [h4, ite_self]
  repeat' apply all_mem_append
  all_goals intro e he
  all_goals first
    | (exact Or.inl ⟨_, _, Gen1.mem_setColorInput he⟩)
    | (exact Or.inr ⟨_, _, Gen1.mem_setTextInputByLabel he⟩)
    | (split at he
       · first
         | (exact Or.inl ⟨_, _, Gen1.mem_setColorInput he⟩)
         | (exact Or.inr ⟨_, _, Gen1.mem_setTextInputByLabel he⟩)
       · simp at he)
    | (simp only [List.mem_ite_nil_right] at he
       first
         | (exact Or.inl ⟨_, _, Gen1.mem_setColorInput he.2⟩)
         | (exact Or.inr ⟨_, _, Gen1.mem_setTextInputByLabel he.2⟩))
    | simp at he

/-- Whether an effect neither opens nor closes a browsing context. -/
def noPageEff (e : Effect) : Bool := !isPageOpen e && !isPageClose e

theorem countP_zero_of_noPage {l : List Effect} (h : l.all noPageEff = true) :
    l.countP isPageOpen = 0 ∧ l.countP isPageClose = 0 := by
  rw [List.all_eq_true] at h
  constructor <;> rw [List.countP_eq_zero] <;> intro e he <;>
    have := h e he <;> revert this <;>
    rcases e <;> simp [noPageEff, isPageOpen, isPageClose]

theorem getBrowser_all_noPage (lk : Bool) (st : SessionSt) :
    (getBrowser lk st).2.2.all noPageEff = true := by
  rcases getBrowser_cases lk st with ⟨h, _, he⟩ | ⟨_, _, he⟩ | ⟨_, _, he⟩ <;> rw [he] <;> rfl

theorem Gen2.bindForm_all_noPage (env : Gen2.Env) (n : NormOpts) :
    (Gen2.bindForm env n).all noPageEff = true := by
  rw [List.all_eq_true]
  intro e he
  rcases Gen2.bindForm_mem he with ⟨i, v, rfl⟩ | ⟨i, rfl⟩ <;> rfl

theorem Gen2.tryBody_all_noPage (env : Gen2.Env) (n : NormOpts) :
    (Gen2.tryBody env n).2.all noPageEff = true := by
  simp only [Gen2.tryBody]
  split
  · rfl
  · split
    · rfl
    · split
      · simp [List.all_append, Gen2.bindForm_all_noPage, noPageEff,
              isPageOpen, isPageClose]
      · split
        · simp [List.all_append, Gen2.bindForm_all_noPage, noPageEff,
                isPageOpen, isPageClose]
        · split
          · simp [List.all_append, Gen2.bindForm_all_noPage, noPageEff,
                  isPageOpen, isPageClose]
          · simp [List.all_append, Gen2.bindForm_all_noPage, noPageEff,
                  isPageOpen, isPageClose]

theorem Gen1.expandPanels_all_noPage (k : Nat) :
    (Gen1.expandPanels k).all noPageEff = true := by
  induction k with
  | zero => rfl
  | succ m ih => simp [Gen1.expandPanels, List.all_append, ih, noPageEff,
                       isPageOpen, isPageClose]

theorem Gen1.bindForm_all_noPage_g1 (env : Gen1.Env) (n : NormOpts) :
    (Gen1.bindForm env n).all noPageEff = true := by
  rw [List.all_eq_true]
  intro e he
  rcases Gen1.bindForm_mem_g1 he with ⟨l, v, rfl⟩ | ⟨l, v, rfl⟩ | ⟨l, rfl⟩ <;> rfl

theorem Gen1.tryBody_all_noPage_g1 (env : Gen1.Env) (n : NormOpts) :
    (Gen1.tryBody env n).2.all noPageEff = true := by
  simp only [Gen1.tryBody]
  split
  · rfl
  · split
    · rfl
    · split
      · simp [List.all_append, Gen1.bindForm_all_noPage_g1,
              Gen1.expandPanels_all_noPage, noPageEff, isPageOpen, isPageClose]
      · split
        · split
          · simp [List.all_append, Gen1.bindForm_all_noPage_g1,
                  Gen1.expandPanels_all_noPage, noPageEff, isPageOpen, isPageClose]
          · simp [List.all_append, Gen1.bindForm_all_noPage_g1,
                  Gen1.expandPanels_all_noPage, noPageEff, isPageOpen, isPageClose]
        · simp [List.all_append, Gen1.bindForm_all_noPage_g1,
                Gen1.expandPanels_all_noPage, noPageEff, isPageOpen, isPageClose]

@[simp] theorem destructure_data (o : Options) : (destructure o).data = o.data := rfl

theorem Gen2.generateQRCode_pages (env : Gen2.Env) (o : Options) (st : SessionSt) :
    newPageCount (Gen2.generateQRCode env o st).2.2
      = closePageCount (Gen2.generateQRCode env o st).2.2 := by
  simp only [Gen2.generateQRCode]
  split
  · rfl
  · rcases getBrowser_cases env.launchOk st with ⟨h, _, he⟩ | ⟨_, _, he⟩ | ⟨_, _, he⟩ <;>
      rw [he] <;>
      simp [newPageCount, closePageCount, List.countP_append, List.countP_cons,
        List.countP_nil, (countP_zero_of_noPage (Gen2.tryBody_all_noPage env (destructure o))).1,
        (countP_zero_of_noPage (Gen2.tryBody_all_noPage env (destructure o))).2,
        isPageOpen, isPageClose]

theorem Gen1.generateQRCode_pages_g1 (env : Gen1.Env) (o : Options) (st : SessionSt) :
    newPageCount (Gen1.generateQRCode env o st).2.2
      = closePageCount (Gen1.generateQRCode env o st).2.2 := by
  simp only [Gen1.generateQRCode]
  split
  · rfl
  · rcases getBrowser_cases env.launchOk st with ⟨h, _, he⟩ | ⟨_, _, he⟩ | ⟨_, _, he⟩ <;>
      rw [he] <;>
      simp [newPageCount, closePageCount, List.countP_append, List.countP_cons,
        List.countP_nil, (countP_zero_of_noPage (Gen1.tryBody_all_noPage_g1 env (destructure o))).1,
        (countP_zero_of_noPage (Gen1.tryBody_all_noPage_g1 env (destructure o))).2,
        isPageOpen, isPageClose]

theorem Gen2.generateQRCode_st (env : Gen2.Env) (o : Options) (st : SessionSt) :
    (Gen2.generateQRCode env o st).2.1
      = if jsTruthyS o.data then (getBrowser env.launchOk st).2.1 else st := by
  simp only [Gen2.generateQRCode]
  cases hj : jsTruthyS o.data
  · simp [hj]
  · simp only [hj, destructure_data, Bool.not_true, Bool.false_eq_true, if_false, if_true]
    rcases getBrowser_cases env.launchOk st with ⟨h, _, he⟩ | ⟨_, _, he⟩ | ⟨_, _, he⟩ <;>
      rw [he]

theorem Gen1.generateQRCode_st_g1 (env : Gen1.Env) (o : Options) (st : SessionSt) :
    (Gen1.generateQRCode env o st).2.1
      = if jsTruthyS o.data then (getBrowser env.launchOk st).2.1 else st := by
  simp only [Gen1.generateQRCode]
  cases hj : jsTruthyS o.data
  · simp [hj]
  · simp only [hj, destructure_data, Bool.not_true, Bool.false_eq_true, if_false, if_true]
    rcases getBrowser_cases env.launchOk st with ⟨h, _, he⟩ | ⟨_, _, he⟩ | ⟨_, _, he⟩ <;>
      rw [he]

theorem Gen2.generateQRCode_good (env : Gen2.Env) (o : Options) (st : SessionSt)
    (hg : goodSt st) : goodSt (Gen2.generateQRCode env o st).2.1 := by
  rw [Gen2.generateQRCode_st]
  split
  · exact getBrowser_good _ _ hg
  · exact hg

theorem Gen2.generateQRCode_isSome_mono (env : Gen2.Env) (o : Options) (st : SessionSt)
    (hb : st.browser.isSome = true) :
    (Gen2.generateQRCode env o st).2.1.browser.isSome = true := by
  rw [Gen2.generateQRCode_st]
  obtain ⟨h, hh⟩ := Option.isSome_iff_exists.mp hb
  split
  · rw [getBrowser_mono _ _ _ hh]; rfl
  · exact hb

theorem Gen2.generateQRCode_isSome_of (env : Gen2.Env) (o : Options) (st : SessionSt)
    (hl : env.launchOk = true) (hd : jsTruthyS o.data = true) :
    (Gen2.generateQRCode env o st).2.1.browser.isSome = true := by
  rw [Gen2.generateQRCode_st, if_pos hd, hl]
  exact getBrowser_launch_some st

theorem Gen2.runSeq_good (env : Gen2.Env) (os : List Options) (st : SessionSt)
    (hg : goodSt st) : goodSt (Gen2.runSeq env os st).1 := by
  induction os generalizing st with
  | nil => exact hg
  | cons o os ih => exact ih _ (Gen2.generateQRCode_good env o st hg)

theorem Gen2.runSeq_isSome_mono (env : Gen2.Env) (os : List Options) (st : SessionSt)
    (hb : st.browser.isSome = true) :
    (Gen2.runSeq env os st).1.browser.isSome = true := by
  induction os generalizing st with
  | nil => exact hb
  | cons o os ih => exact ih _ (Gen2.generateQRCode_isSome_mono env o st hb)

theorem Gen2.runSeq_isSome (env : Gen2.Env) (os : List Options) (st : SessionSt)
    (hl : env.launchOk = true)
    (h : ∃ o ∈ os, jsTruthyS o.data = true) :
    (Gen2.runSeq env os st).1.browser.isSome = true := by
  induction os generalizing st with
  | nil => simp at h
  | cons o os ih =>
      rcases h with ⟨o', ho', hd⟩
      rcases List.mem_cons.mp ho' with rfl | hmem
      · exact Gen2.runSeq_isSome_mono env os _
          (Gen2.generateQRCode_isSome_of env o' st hl hd)
      · exact ih _ ⟨o', hmem, hd⟩

theorem Gen2.runSeq_pages (env : Gen2.Env) (os : List Options) (st : SessionSt) :
    newPageCount (Gen2.runSeq env os st).2 = closePageCount (Gen2.runSeq env os st).2 := by
  induction os generalizing st with
  | nil => rfl
  | cons o os ih =>
      simp only [Gen2.runSeq, newPageCount, closePageCount, List.countP_append]
      have h1 := Gen2.generateQRCode_pages env o st
      simp only [newPageCount, closePageCount] at h1
      rw [h1]
      have h2 := ih (Gen2.generateQRCode env o st).2.1
      simp only [newPageCount, closePageCount] at h2
      rw [h2]

theorem Gen2.generateQRCode_result (env : Gen2.Env) (o : Options) (st : SessionSt)
    (hd : jsTruthyS o.data = true)
    (hgb : env.launchOk = true ∨ st.browser.isSome = true) :
    (Gen2.generateQRCode env o st).1 = (Gen2.tryBody env (destructure o)).1 := by
  simp only [Gen2.generateQRCode, destructure_data, hd, Bool.not_true,
    Bool.false_eq_true, if_false]
  rcases getBrowser_cases env.launchOk st with ⟨h, _, he⟩ | ⟨_, _, he⟩ | ⟨hb, hl, he⟩ <;>
    rw [he]
  rcases hgb with hgb | hgb
  · rw [hgb] at hl; cases hl
  · rw [hb] at hgb; cases hgb

theorem Gen2.generateQRCode_trace (env : Gen2.Env) (o : Options) (st : SessionSt)
    (hd : jsTruthyS o.data = true)
    (hgb : env.launchOk = true ∨ st.browser.isSome = true) :
    ∃ t0, (Gen2.generateQRCode env o st).2.2
      = t0 ++ [Effect.newPage] ++ (Gen2.tryBody env (destructure o)).2
          ++ [Effect.closePage] := by
  simp only [Gen2.generateQRCode, destructure_data, hd, Bool.not_true,
    Bool.false_eq_true, if_false]
  rcases getBrowser_cases env.launchOk st with ⟨h, _, he⟩ | ⟨_, _, he⟩ | ⟨hb, hl, he⟩ <;>
    rw [he]
  · exact ⟨[], by simp⟩
  · exact ⟨[.launch], by simp⟩
  · rcases hgb with hgb | hgb
    · rw [hgb] at hl; cases hl
    · rw [hb] at hgb; cases hgb

theorem Gen1.generateQRCode_result_g1 (env : Gen1.Env) (o : Options) (st : SessionSt)
    (hd : jsTruthyS o.data = true)
    (hgb : env.launchOk = true ∨ st.browser.isSome = true) :
    (Gen1.generateQRCode env o st).1 = (Gen1.tryBody env (destructure o)).1 := by
  simp only [Gen1.generateQRCode, destructure_data, hd, Bool.not_true,
    Bool.false_eq_true, if_false]
  rcases getBrowser_cases env.launchOk st with ⟨h, _, he⟩ | ⟨_, _, he⟩ | ⟨hb, hl, he⟩ <;>
    rw [he]
  rcases hgb with hgb | hgb
  · rw [hgb] at hl; cases hl
  · rw [hb] at hgb; cases hgb

theorem Gen1.generateQRCode_trace_g1 (env : Gen1.Env) (o : Options) (st : SessionSt)
    (hd : jsTruthyS o.data = true)
    (hgb : env.launchOk = true ∨ st.browser.isSome = true) :
    ∃ t0, (Gen1.generateQRCode env o st).2.2
      = t0 ++ [Effect.newPage] ++ (Gen1.tryBody env (destructure o)).2
          ++ [Effect.closePage] := by
  simp only [Gen1.generateQRCode, destructure_data, hd, Bool.not_true,
    Bool.false_eq_true, if_false]
  rcases getBrowser_cases env.launchOk st with ⟨h, _, he⟩ | ⟨_, _, he⟩ | ⟨hb, hl, he⟩ <;>
    rw [he]
  · exact ⟨[], by simp⟩
  · exact ⟨[.launch], by simp⟩
  · rcases hgb with hgb | hgb
    · rw [hgb] at hl; cases hl
    · rw [hb] at hgb; cases hgb

theorem Gen2.tryBody_noFile (env : Gen2.Env) (n : NormOpts)
    (hg : env.gotoOk = true) (hw : env.waitReadyOk = true)
    (hb : env.hasElem (Gen2.buttonId n.format) = true)
    (hf : env.files.find?
        (fun f => endsWithJs f ("." ++ (if n.format = "jpeg" then "jpg" else n.format)))
      = none) :
    (Gen2.tryBody env n).1 = .error "Download failed - no file found" := by
  simp only [Gen2.tryBody, hg, hw, hb, Bool.not_true, Bool.false_eq_true, if_false]
  rw [hf]

theorem Gen2.tryBody_ok (env : Gen2.Env) (n : NormOpts) (fl : String)
    (hg : env.gotoOk = true) (hw : env.waitReadyOk = true)
    (hb : env.hasElem (Gen2.buttonId n.format) = true)
    (hf : env.files.find?
        (fun f => endsWithJs f ("." ++ (if n.format = "jpeg" then "jpg" else n.format)))
      = some fl)
    (hr : env.readOk = true) :
    (Gen2.tryBody env n).1 = .ok (.fileBytes env.fileBytes)
    ∧ ∃ t, (Gen2.tryBody env n).2
        = t ++ [Effect.readFile (Gen2.downloadPath ++ "/" ++ fl),
                Effect.unlink (Gen2.downloadPath ++ "/" ++ fl)] := by
  simp only [Gen2.tryBody, hg, hw, hb, hr, Bool.not_true, Bool.false_eq_true, if_false]
  rw [hf]
  exact ⟨rfl, ⟨_, rfl⟩⟩

theorem Gen2.tryBody_readFail (env : Gen2.Env) (n : NormOpts) (fl : String)
    (hg : env.gotoOk = true) (hw : env.waitReadyOk = true)
    (hb : env.hasElem (Gen2.buttonId n.format) = true)
    (hf : env.files.find?
        (fun f => endsWithJs f ("." ++ (if n.format = "jpeg" then "jpg" else n.format)))
      = some fl)
    (hr : env.readOk = false) :
    exceptOk (Gen2.tryBody env n).1 = false
    ∧ ∃ t, (Gen2.tryBody env n).2
        = t ++ [Effect.readFile (Gen2.downloadPath ++ "/" ++ fl)] := by
  simp only [Gen2.tryBody, hg, hw, hb, hr, Bool.not_true, Bool.false_eq_true, if_false]
  rw [hf]
  exact ⟨rfl, ⟨_, rfl⟩⟩

/-- Whether an effect is a file deletion. -/
def isUnlink : Effect → Bool
  | .unlink _ => true
  | _ => false

theorem Gen2.bindForm_no_unlink (env : Gen2.Env) (n : NormOpts) :
    (Gen2.bindForm env n).any isUnlink = false := by
  rw [Bool.eq_false_iff]
  intro hc
  rw [List.any_eq_true] at hc
  obtain ⟨e, he, hu⟩ := hc
  rcases Gen2.bindForm_mem he with ⟨i, v, rfl⟩ | ⟨i, rfl⟩ <;> cases hu

theorem Gen2.tryBody_readFail_no_unlink (env : Gen2.Env) (n : NormOpts) (fl : String)
    (hg : env.gotoOk = true) (hw : env.waitReadyOk = true)
    (hb : env.hasElem (Gen2.buttonId n.format) = true)
    (hf : env.files.find?
        (fun f => endsWithJs f ("." ++ (if n.format = "jpeg" then "jpg" else n.format)))
      = some fl)
    (hr : env.readOk = false) :
    (Gen2.tryBody env n).2.any isUnlink = false := by
  simp only [Gen2.tryBody, hg, hw, hb, hr, Bool.not_true, Bool.false_eq_true, if_false]
  rw [hf]
  simp [List.any_append, Gen2.bindForm_no_unlink, isUnlink]

theorem Gen2.tryBody_click (env : Gen2.Env) (n : NormOpts)
    (hg : env.gotoOk = true) (hw : env.waitReadyOk = true)
    (hb : env.hasElem (Gen2.buttonId n.format) = true) :
    Effect.clickElem (Gen2.buttonId n.format) ∈ (Gen2.tryBody env n).2 := by
  simp only [Gen2.tryBody, hg, hw, hb, Bool.not_true, Bool.false_eq_true, if_false]
  cases hf : env.files.find?
      (fun f => endsWithJs f ("." ++ (if n.format = "jpeg" then "jpg" else n.format)))
  · simp [List.mem_append]
  · by_cases hr : env.readOk = true <;> simp [hr, List.mem_append]

theorem Gen2.buttonId_default (fmt : String) (h1 : fmt ≠ "svg") (h2 : fmt ≠ "jpeg") :
    Gen2.buttonId fmt = "download-qr-image-button-png" := by
  simp [Gen2.buttonId, h1, h2]

theorem Gen1.tryBody_noContainer (env : Gen1.Env) (n : NormOpts)
    (hg : env.gotoOk = true) (hw : env.waitOk = true)
    (hq : env.qrContainerPresent = false) :
    (Gen1.tryBody env n).1 = .error "QR code element not found" := by
  simp [Gen1.tryBody, hg, hw, hq]

theorem Gen1.tryBody_svg_none (env : Gen1.Env) (n : NormOpts)
    (hg : env.gotoOk = true) (hw : env.waitOk = true)
    (hq : env.qrContainerPresent = true) (hfmt : n.format = "svg")
    (hs : env.svgContent = none) :
    (Gen1.tryBody env n).1 = .error "SVG element not found" := by
  simp [Gen1.tryBody, hg, hw, hq, hfmt, hs]

theorem Gen1.tryBody_svg_some (env : Gen1.Env) (n : NormOpts) (s : String)
    (hg : env.gotoOk = true) (hw : env.waitOk = true)
    (hq : env.qrContainerPresent = true) (hfmt : n.format = "svg")
    (hs : env.svgContent = some s) :
    (Gen1.tryBody env n).1 = .ok (.fromUtf8 s) := by
  simp [Gen1.tryBody, hg, hw, hq, hfmt, hs]

theorem Gen1.tryBody_raster (env : Gen1.Env) (n : NormOpts)
    (hg : env.gotoOk = true) (hw : env.waitOk = true)
    (hq : env.qrContainerPresent = true) (hfmt : n.format ≠ "svg") :
    (Gen1.tryBody env n).1
      = .ok (.raster (if n.format = "png" then "png" else "jpeg") env.shotBytes) := by
  simp [Gen1.tryBody, hg, hw, hq, hfmt]

/-- C1: for every options object whose data field is absent or empty (JS
falsy), generateQRCode in both builds fails with the error message "Data to
encode is required" before any browser interaction: the session state is
returned unchanged (no browser launched or touched) and the effect trace is
empty (no page created). -/
theorem generateQRCode_rejects_missing_data (env2 : Gen2.Env) (env1 : Gen1.Env)
    (o : Options) (st : SessionSt) (h : jsTruthyS o.data = false) :
    Gen2.generateQRCode env2 o st = (.error "Data to encode is required", st, [])
    ∧ Gen1.generateQRCode env1 o st = (.error "Data to encode is required", st, []) := by
  constructor <;> simp [Gen2.generateQRCode, Gen1.generateQRCode, h]

/-- C1 witness: the empty request body is rejected without any effect. -/
theorem generateQRCode_rejects_missing_data_witness :
    jsTruthyS emptyOptions.data = false
    ∧ (Gen2.generateQRCode env2demo emptyOptions initialSt
        = (.error "Data to encode is required", initialSt, [])
      ∧ Gen1.generateQRCode env1demo emptyOptions initialSt
        = (.error "Data to encode is required", initialSt, [])) :=
  ⟨rfl, generateQRCode_rejects_missing_data env2demo env1demo emptyOptions initialSt rfl⟩

/-- C5: getBrowser is idempotent: a live cached handle is returned as is with
no state change; from a null cache a successful launch caches and returns a
fresh handle and every subsequent call returns that same handle; a failed
launch propagates the error, leaves the cache null, and the next call retries
the launch from scratch; and under the session invariant at most one live
session exists after any call. -/
theorem getBrowser_idempotent_single_session (st : SessionSt) (h : Nat) (lk : Bool) :
    (st.browser = some h → getBrowser lk st = (.ok h, st, []))
    ∧ (st.browser = none →
        (getBrowser true st).1 = .ok st.nextHandle
        ∧ (getBrowser true st).2.1.browser = some st.nextHandle
        ∧ getBrowser lk (getBrowser true st).2.1
            = (.ok st.nextHandle, (getBrowser true st).2.1, []))
    ∧ (st.browser = none →
        (getBrowser false st).1 = .error "Failed to launch the browser process"
        ∧ (getBrowser false st).2.1 = st
        ∧ (getBrowser false st).2.1.browser = none
        ∧ (getBrowser true (getBrowser false st).2.1).1 = .ok st.nextHandle)
    ∧ (goodSt st → (getBrowser lk st).2.1.liveSessions ≤ 1) := by
  refine ⟨?_, ?_, ?_, ?_⟩
  · intro hb; simp [getBrowser, hb]
  · intro hb; simp [getBrowser, hb]
  · intro hb; simp [getBrowser, hb]
  · intro hg
    have hgood := getBrowser_good lk st hg
    unfold goodSt at hgood
    rw [hgood]
    split <;> simp

/-- C5 witness: a cached handle is returned unchanged; a launch from the
clean state yields handle 0; a failed launch leaves the cache null. -/
theorem getBrowser_idempotent_single_session_witness :
    getBrowser true { browser := some 7, liveSessions := 1, nextHandle := 8 }
        = (.ok 7, { browser := some 7, liveSessions := 1, nextHandle := 8 }, [])
    ∧ (getBrowser true initialSt).1 = .ok initialSt.nextHandle
    ∧ (getBrowser false initialSt).2.1.browser = none :=
  ⟨(getBrowser_idempotent_single_session
      { browser := some 7, liveSessions := 1, nextHandle := 8 } 7 true).1 rfl,
   ((getBrowser_idempotent_single_session initialSt 0 true).2.1 rfl).1,
   ((getBrowser_idempotent_single_session initialSt 0 true).2.2.1 rfl).2.2.1⟩

/-- C4: in both builds every generateQRCode call balances page creation and
page closure in its effect trace (the page is closed on every exit path);
consequently a whole sequence of requests from process start balances them
(zero per-request browsing contexts remain), and provided launches succeed
and at least one request passes validation, exactly one browser session
exists afterwards. -/
theorem page_closed_on_every_exit_path (env2 : Gen2.Env) (env1 : Gen1.Env)
    (o : Options) (st : SessionSt) (os : List Options)
    (hl : env2.launchOk = true)
    (hx : ∃ o' ∈ os, jsTruthyS o'.data = true) :
    newPageCount (Gen2.generateQRCode env2 o st).2.2
      = closePageCount (Gen2.generateQRCode env2 o st).2.2
    ∧ newPageCount (Gen1.generateQRCode env1 o st).2.2
      = closePageCount (Gen1.generateQRCode env1 o st).2.2
    ∧ newPageCount (Gen2.runSeq env2 os initialSt).2
      = closePageCount (Gen2.runSeq env2 os initialSt).2
    ∧ (Gen2.runSeq env2 os initialSt).1.liveSessions = 1 := by
  refine ⟨Gen2.generateQRCode_pages env2 o st, Gen1.generateQRCode_pages_g1 env1 o st,
    Gen2.runSeq_pages env2 os initialSt, ?_⟩
  have hgood := Gen2.runSeq_good env2 os initialSt goodSt_initial
  have hsome := Gen2.runSeq_isSome env2 os initialSt hl hx
  unfold goodSt at hgood
  rw [hsome] at hgood
  simpa using hgood

/-- C4 witness: one successful and one validation-failing request. -/
theorem page_closed_on_every_exit_path_witness :
    newPageCount (Gen2.generateQRCode env2demo oDemo initialSt).2.2
      = closePageCount (Gen2.generateQRCode env2demo oDemo initialSt).2.2
    ∧ newPageCount (Gen1.generateQRCode env1demo oDemo initialSt).2.2
      = closePageCount (Gen1.generateQRCode env1demo oDemo initialSt).2.2
    ∧ newPageCount (Gen2.runSeq env2demo [oDemo, emptyOptions] initialSt).2
      = closePageCount (Gen2.runSeq env2demo [oDemo, emptyOptions] initialSt).2
    ∧ (Gen2.runSeq env2demo [oDemo, emptyOptions] initialSt).1.liveSessions = 1 :=
  page_closed_on_every_exit_path env2demo env1demo oDemo initialSt
    [oDemo, emptyOptions] rfl ⟨oDemo, by simp, rfl⟩

theorem Gen2.postGenerate_error (env : Gen2.Env) (o : Options) (st : SessionSt)
    (e : String) (hp : (Gen2.generateQRCode env o st).1 = .error e) :
    (Gen2.postGenerate env o st).1
      = { status := 500, contentType := some "application/json"
          contentDisposition := none, body := .jsonError e } := by
  unfold Gen2.postGenerate
  rcases hres : Gen2.generateQRCode env o st with ⟨r, st1, tr⟩
  rw [hres] at hp
  have hr : r = .error e := hp
  subst hr
  simp

theorem Gen2.postGenerate_ok (env : Gen2.Env) (o : Options) (st : SessionSt)
    (art : Artifact) (hp : (Gen2.generateQRCode env o st).1 = .ok art) :
    (Gen2.postGenerate env o st).1
      = { status := 200
          contentType := some (contentTypeFor (jsOrS o.format "png"))
          contentDisposition :=
            some ("attachment; filename=\"qrcode." ++ jsOrS o.format "png" ++ "\"")
          body := .payload art } := by
  unfold Gen2.postGenerate
  rcases hres : Gen2.generateQRCode env o st with ⟨r, st1, tr⟩
  rw [hres] at hp
  have hr : r = .ok art := hp
  subst hr
  simp

theorem Gen2.getGenerate_error (env : Gen2.Env) (q : Query) (st : SessionSt)
    (e : String) (hp : (Gen2.generateQRCode env (queryToOptions q) st).1 = .error e) :
    (Gen2.getGenerate env q st).1
      = { status := 500, contentType := some "application/json"
          contentDisposition := none, body := .jsonError e } := by
  rcases hres : Gen2.generateQRCode env (queryToOptions q) st with ⟨r, st1, tr⟩
  rw [hres] at hp
  have hr : r = .error e := hp
  subst hr
  simp only [Gen2.getGenerate, hres]

theorem Gen2.getGenerate_ok (env : Gen2.Env) (q : Query) (st : SessionSt)
    (art : Artifact)
    (hp : (Gen2.generateQRCode env (queryToOptions q) st).1 = .ok art) :
    (Gen2.getGenerate env q st).1
      = { status := 200
          contentType := some (contentTypeFor (jsOrS q.format "png"))
          contentDisposition := none
          body := .payload art } := by
  rcases hres : Gen2.generateQRCode env (queryToOptions q) st with ⟨r, st1, tr⟩
  rw [hres] at hp
  have hr : r = .ok art := hp
  subst hr
  simp only [Gen2.getGenerate, hres]
  simp [queryToOptions]

theorem Gen1.postGenerate_ok_g1 (env : Gen1.Env) (o : Options) (st : SessionSt)
    (art : Artifact) (hp : (Gen1.generateQRCode env o st).1 = .ok art) :
    (Gen1.postGenerate env o st).1
      = { status := 200
          contentType := some (contentTypeFor (jsOrS o.format "png"))
          contentDisposition :=
            some ("attachment; filename=\"qrcode." ++ jsOrS o.format "png" ++ "\"")
          body := .payload art } := by
  unfold Gen1.postGenerate
  rcases hres : Gen1.generateQRCode env o st with ⟨r, st1, tr⟩
  rw [hres] at hp
  have hr : r = .ok art := hp
  subst hr
  simp

theorem Gen1.getGenerate_ok_g1 (env : Gen1.Env) (q : Query) (st : SessionSt)
    (art : Artifact)
    (hp : (Gen1.generateQRCode env (queryToOptions q) st).1 = .ok art) :
    (Gen1.getGenerate env q st).1
      = { status := 200
          contentType := some (contentTypeFor (jsOrS q.format "png"))
          contentDisposition := none
          body := .payload art } := by
  rcases hres : Gen1.generateQRCode env (queryToOptions q) st with ⟨r, st1, tr⟩
  rw [hres] at hp
  have hr : r = .ok art := hp
  subst hr
  simp only [Gen1.getGenerate, hres]
  simp [queryToOptions]

/-- Demo request asking for svg output. -/
def oSvgDemo : Options := { oDemo with format := some "svg" }

/-- Demo request asking for an unrecognized format. -/
def oGifDemo : Options := { oDemo with format := some "gif" }

/-- Demo GET query carrying only the data parameter. -/
def qDemo : Query := { emptyQuery with data := some "Hello World" }

/-- C6: for every POST /generate or GET /generate request on which
generateQRCode throws (for any reason, validation included), the handler
responds with status 500 and a JSON body holding exactly the error message;
the handlers are total functions of the request, so the process does not
crash. -/
theorem errors_yield_http_500_json (env : Gen2.Env) (o : Options) (q : Query)
    (st st2 : SessionSt) (e e2 : String)
    (hp : (Gen2.generateQRCode env o st).1 = .error e)
    (hq : (Gen2.generateQRCode env (queryToOptions q) st2).1 = .error e2) :
    (Gen2.postGenerate env o st).1
      = { status := 500, contentType := some "application/json"
          contentDisposition := none, body := .jsonError e }
    ∧ (Gen2.getGenerate env q st2).1
      = { status := 500, contentType := some "application/json"
          contentDisposition := none, body := .jsonError e2 } :=
  ⟨Gen2.postGenerate_error env o st e hp, Gen2.getGenerate_error env q st2 e2 hq⟩

/-- C6 witness: a validation failure on both endpoints yields the 500 JSON
error response. -/
theorem errors_yield_http_500_json_witness :
    (Gen2.postGenerate env2demo emptyOptions initialSt).1
      = { status := 500, contentType := some "application/json"
          contentDisposition := none, body := .jsonError "Data to encode is required" }
    ∧ (Gen2.getGenerate env2demo emptyQuery initialSt).1
      = { status := 500, contentType := some "application/json"
          contentDisposition := none, body := .jsonError "Data to encode is required" } :=
  errors_yield_http_500_json env2demo emptyOptions emptyQuery initialSt initialSt
    "Data to encode is required" "Data to encode is required" rfl rfl

/-- C7: on success the content type is derived from the format with png as
the omitted-format default: image/svg+xml for svg and image/png or
image/jpeg for the rasters; POST /generate additionally sets a
content-disposition attachment named qrcode.<format> while GET /generate
sets no content-disposition header. -/
theorem success_content_type_and_disposition
    (env : Gen2.Env) (env1 : Gen1.Env) (o : Options) (q : Query)
    (st st2 : SessionSt) (art art1 : Artifact)
    (hp : (Gen2.generateQRCode env o st).1 = .ok art)
    (hq : (Gen1.generateQRCode env1 (queryToOptions q) st2).1 = .ok art1) :
    ((Gen2.postGenerate env o st).1.status = 200
     ∧ (Gen2.postGenerate env o st).1.contentType
        = some (contentTypeFor (jsOrS o.format "png"))
     ∧ (Gen2.postGenerate env o st).1.contentDisposition
        = some ("attachment; filename=\"qrcode." ++ jsOrS o.format "png" ++ "\""))
    ∧ ((Gen1.getGenerate env1 q st2).1.status = 200
       ∧ (Gen1.getGenerate env1 q st2).1.contentType
          = some (contentTypeFor (jsOrS q.format "png"))
       ∧ (Gen1.getGenerate env1 q st2).1.contentDisposition = none)
    ∧ contentTypeFor "svg" = "image/svg+xml"
    ∧ contentTypeFor "png" = "image/png"
    ∧ contentTypeFor "jpeg" = "image/jpeg"
    ∧ jsOrS none "png" = "png" := by
  refine ⟨?_, ?_, rfl, rfl, rfl, rfl⟩
  · rw [Gen2.postGenerate_ok env o st art hp]
    exact ⟨rfl, rfl, rfl⟩
  · rw [Gen1.getGenerate_ok_g1 env1 q st2 art1 hq]
    exact ⟨rfl, rfl, rfl⟩

/-- C7 witness: a default-format POST success and a default-format GET
success with the expected headers. -/
theorem success_content_type_and_disposition_witness :
    ((Gen2.postGenerate env2demo oDemo initialSt).1.status = 200
     ∧ (Gen2.postGenerate env2demo oDemo initialSt).1.contentType
        = some (contentTypeFor (jsOrS oDemo.format "png"))
     ∧ (Gen2.postGenerate env2demo oDemo initialSt).1.contentDisposition
        = some ("attachment; filename=\"qrcode." ++ jsOrS oDemo.format "png" ++ "\""))
    ∧ ((Gen1.getGenerate env1demo qDemo initialSt).1.status = 200
       ∧ (Gen1.getGenerate env1demo qDemo initialSt).1.contentType
          = some (contentTypeFor (jsOrS qDemo.format "png"))
       ∧ (Gen1.getGenerate env1demo qDemo initialSt).1.contentDisposition = none)
    ∧ contentTypeFor "svg" = "image/svg+xml"
    ∧ contentTypeFor "png" = "image/png"
    ∧ contentTypeFor "jpeg" = "image/jpeg"
    ∧ jsOrS none "png" = "png" :=
  success_content_type_and_disposition env2demo env1demo oDemo qDemo
    initialSt initialSt (.fileBytes env2demo.fileBytes)
    (.raster "png" env1demo.shotBytes) rfl rfl

/-- C8: direct-capture strategy (generation-1 build) with svg format: the
vector markup inside the export container is serialized from the DOM and
returned as its UTF-8 bytes; if the export container is absent, or the
contained vector markup is absent, the call fails with the corresponding
missing-artifact error instead of returning bytes. -/
theorem gen1_svg_extraction (env : Gen1.Env) (o : Options) (st : SessionSt)
    (hd : jsTruthyS o.data = true)
    (hgb : env.launchOk = true ∨ st.browser.isSome = true)
    (hg : env.gotoOk = true) (hw : env.waitOk = true)
    (hfmt : o.format = some "svg") :
    (env.qrContainerPresent = false →
        (Gen1.generateQRCode env o st).1 = .error "QR code element not found")
    ∧ (env.qrContainerPresent = true → env.svgContent = none →
        (Gen1.generateQRCode env o st).1 = .error "SVG element not found")
    ∧ (∀ s, env.qrContainerPresent = true → env.svgContent = some s →
        (Gen1.generateQRCode env o st).1 = .ok (.fromUtf8 s)) := by
  have hfmt' : (destructure o).format = "svg" := by simp [destructure, hfmt]
  refine ⟨?_, ?_, ?_⟩
  · intro hq
    rw [Gen1.generateQRCode_result_g1 env o st hd hgb]
    exact Gen1.tryBody_noContainer env _ hg hw hq
  · intro hq hs
    rw [Gen1.generateQRCode_result_g1 env o st hd hgb]
    exact Gen1.tryBody_svg_none env _ hg hw hq hfmt' hs
  · intro s hq hs
    rw [Gen1.generateQRCode_result_g1 env o st hd hgb]
    exact Gen1.tryBody_svg_some env _ s hg hw hq hfmt' hs

/-- C8 witness: the three outcomes at concrete environments. -/
theorem gen1_svg_extraction_witness :
    (Gen1.generateQRCode { env1demo with qrContainerPresent := false } oSvgDemo initialSt).1
        = .error "QR code element not found"
    ∧ (Gen1.generateQRCode { env1demo with svgContent := none } oSvgDemo initialSt).1
        = .error "SVG element not found"
    ∧ (Gen1.generateQRCode env1demo oSvgDemo initialSt).1
        = .ok (.fromUtf8 "<svg data-v=\"1\"></svg>") :=
  ⟨(gen1_svg_extraction { env1demo with qrContainerPresent := false } oSvgDemo initialSt
      rfl (Or.inl rfl) rfl rfl rfl).1 rfl,
   (gen1_svg_extraction { env1demo with svgContent := none } oSvgDemo initialSt
      rfl (Or.inl rfl) rfl rfl rfl).2.1 rfl rfl,
   (gen1_svg_extraction env1demo oSvgDemo initialSt
      rfl (Or.inl rfl) rfl rfl rfl).2.2 _ rfl rfl⟩

/-- C9: for a truthy format that is none of png, jpeg, svg (for example
gif): in the generation-2 build the png export control is clicked while the
download directory is scanned for the unrecognized extension, so with no
such file present the call fails with the missing-artifact error; in the
generation-1 build a jpeg screenshot is returned while the POST handler
labels the response image/<format>, mislabeling the bytes. -/
theorem unknown_format_mismatch (env : Gen2.Env) (env1 : Gen1.Env)
    (o : Options) (st st1 : SessionSt) (f : String)
    (hof : o.format = some f) (hne : f ≠ "")
    (hf1 : f ≠ "png") (hf2 : f ≠ "jpeg") (hf3 : f ≠ "svg")
    (hd : jsTruthyS o.data = true)
    (hgb : env.launchOk = true ∨ st.browser.isSome = true)
    (hg : env.gotoOk = true) (hw : env.waitReadyOk = true)
    (hbtn : env.hasElem "download-qr-image-button-png" = true)
    (hnof : env.files.find? (fun fl => endsWithJs fl ("." ++ f)) = none)
    (hgb1 : env1.launchOk = true ∨ st1.browser.isSome = true)
    (hg1 : env1.gotoOk = true) (hw1 : env1.waitOk = true)
    (hq1 : env1.qrContainerPresent = true) :
    (Gen2.generateQRCode env o st).1 = .error "Download failed - no file found"
    ∧ Effect.clickElem "download-qr-image-button-png"
        ∈ (Gen2.generateQRCode env o st).2.2
    ∧ (Gen1.generateQRCode env1 o st1).1 = .ok (.raster "jpeg" env1.shotBytes)
    ∧ (Gen1.postGenerate env1 o st1).1.contentType = some ("image/" ++ f) := by
  have hfmt : (destructure o).format = f := by simp [destructure, hof]
  have hbtn' : env.hasElem (Gen2.buttonId (destructure o).format) = true := by
    rw [hfmt, Gen2.buttonId_default f hf3 hf2]
    exact hbtn
  have hnof' : env.files.find?
      (fun fl => endsWithJs fl
        ("." ++ (if (destructure o).format = "jpeg" then "jpg"
                 else (destructure o).format))) = none := by
    rw [hfmt]
    simp only [if_neg hf2]
    exact hnof
  have hres1 : (Gen1.generateQRCode env1 o st1).1 = .ok (.raster "jpeg" env1.shotBytes) := by
    rw [Gen1.generateQRCode_result_g1 env1 o st1 hd hgb1]
    have := Gen1.tryBody_raster env1 (destructure o) hg1 hw1 hq1 (by rw [hfmt]; exact hf3)
    rwa [hfmt, if_neg hf1] at this
  refine ⟨?_, ?_, hres1, ?_⟩
  · rw [Gen2.generateQRCode_result env o st hd hgb]
    exact Gen2.tryBody_noFile env _ hg hw hbtn' hnof'
  · obtain ⟨t0, htr⟩ := Gen2.generateQRCode_trace env o st hd hgb
    rw [htr]
    have hc := Gen2.tryBody_click env (destructure o) hg hw hbtn'
    rw [hfmt, Gen2.buttonId_default f hf3 hf2] at hc
    simp only [List.append_assoc, List.mem_append]
    exact Or.inr (Or.inr (Or.inl hc))
  · rw [Gen1.postGenerate_ok_g1 env1 o st1 _ hres1]
    have hj : jsOrS o.format "png" = f := by simp [jsOrS, hof, hne]
    simp [contentTypeFor, hj, hf3]

/-- C9 witness: a gif request against cooperative environments. -/
theorem unknown_format_mismatch_witness :
    (Gen2.generateQRCode env2demo oGifDemo initialSt).1
        = .error "Download failed - no file found"
    ∧ Effect.clickElem "download-qr-image-button-png"
        ∈ (Gen2.generateQRCode env2demo oGifDemo initialSt).2.2
    ∧ (Gen1.generateQRCode env1demo oGifDemo initialSt).1
        = .ok (.raster "jpeg" env1demo.shotBytes)
    ∧ (Gen1.postGenerate env1demo oGifDemo initialSt).1.contentType
        = some ("image/" ++ "gif") :=
  unknown_format_mismatch env2demo env1demo oGifDemo initialSt initialSt "gif"
    rfl (by decide) (by decide) (by decide) (by decide) rfl (Or.inl rfl)
    rfl rfl rfl rfl (Or.inl rfl) rfl rfl rfl

theorem Gen1.errorCorrectionLabel_eq_none {lvl : String}
    (h : lvl ∉ Gen2.ERROR_CORRECTION_LEVELS) :
    Gen1.errorCorrectionLabel lvl = none := by
  unfold Gen1.errorCorrectionLabel
  split <;> simp_all [Gen2.ERROR_CORRECTION_LEVELS]

theorem Gen2.generateQRCode_trace_eq (env : Gen2.Env) (o : Options) (st : SessionSt)
    (hd : jsTruthyS o.data = true)
    (hgb : env.launchOk = true ∨ st.browser.isSome = true) :
    (Gen2.generateQRCode env o st).2.2
      = (getBrowser env.launchOk st).2.2 ++ [Effect.newPage]
        ++ (Gen2.tryBody env (destructure o)).2 ++ [Effect.closePage] := by
  simp only [Gen2.generateQRCode, destructure_data, hd, Bool.not_true,
    Bool.false_eq_true, if_false]
  rcases getBrowser_cases env.launchOk st with ⟨h, _, he⟩ | ⟨_, _, he⟩ | ⟨hb, hl, he⟩ <;>
    rw [he]
  rcases hgb with hgb | hgb
  · rw [hgb] at hl; cases hl
  · rw [hb] at hgb; cases hgb

theorem Gen1.generateQRCode_trace_eq_g1 (env : Gen1.Env) (o : Options) (st : SessionSt)
    (hd : jsTruthyS o.data = true)
    (hgb : env.launchOk = true ∨ st.browser.isSome = true) :
    (Gen1.generateQRCode env o st).2.2
      = (getBrowser env.launchOk st).2.2 ++ [Effect.newPage]
        ++ (Gen1.tryBody env (destructure o)).2 ++ [Effect.closePage] := by
  simp only [Gen1.generateQRCode, destructure_data, hd, Bool.not_true,
    Bool.false_eq_true, if_false]
  rcases getBrowser_cases env.launchOk st with ⟨h, _, he⟩ | ⟨_, _, he⟩ | ⟨hb, hl, he⟩ <;>
    rw [he]
  rcases hgb with hgb | hgb
  · rw [hgb] at hl; cases hl
  · rw [hb] at hgb; cases hgb

theorem getBrowser_trace_benign (lk : Bool) (st : SessionSt) :
    (getBrowser lk st).2.2.any isEnumRadioClick2 = false
    ∧ (getBrowser lk st).2.2.any isLabelClick = false := by
  rcases getBrowser_cases lk st with ⟨h, _, he⟩ | ⟨_, _, he⟩ | ⟨_, _, he⟩ <;>
    rw [he] <;> exact ⟨rfl, rfl⟩

theorem Gen2.buttonId_not_enum (fmt : String) :
    isEnumRadioClick2 (.clickElem (Gen2.buttonId fmt)) = false := by
  unfold Gen2.buttonId
  split
  · rfl
  · split <;> rfl

theorem Gen2.tryBody_no_enum_clicks (env : Gen2.Env) (n : NormOpts)
    (h1 : n.dotsType ∉ Gen2.DOT_TYPES)
    (h2 : n.cornersSquareType ∉ Gen2.CORNER_SQUARE_TYPES)
    (h3 : n.cornersDotType ∉ Gen2.CORNER_DOT_TYPES)
    (h4 : n.errorCorrectionLevel ∉ Gen2.ERROR_CORRECTION_LEVELS) :
    (Gen2.tryBody env n).2.any isEnumRadioClick2 = false := by
  have hbf : (Gen2.bindForm env n).any isEnumRadioClick2 = false := by
    rw [Bool.eq_false_iff]
    intro hc
    rw [List.any_eq_true] at hc
    obtain ⟨e, he, hpe⟩ := hc
    obtain ⟨i, v, rfl⟩ := Gen2.bindForm_no_radio h1 h2 h3 h4 he
    cases hpe
  simp only [Gen2.tryBody]
  split
  · rfl
  · split
    · rfl
    · split
      · simp [List.any_append, hbf, isEnumRadioClick2]
      · split
        · simp only [List.any_append, List.any_cons, List.any_nil,
            Gen2.buttonId_not_enum, hbf]
          simp [isEnumRadioClick2]
        · split <;>
            · simp only [List.any_append, List.any_cons, List.any_nil,
                Gen2.buttonId_not_enum, hbf]
              simp [isEnumRadioClick2]

theorem Gen1.expandPanels_no_label (k : Nat) :
    (Gen1.expandPanels k).any isLabelClick = false := by
  induction k with
  | zero => rfl
  | succ m ih => simp [Gen1.expandPanels, List.any_append, ih, isLabelClick]

theorem Gen1.tryBody_no_label_clicks (env : Gen1.Env) (n : NormOpts)
    (h1 : n.dotsType ∉ Gen1.DOT_TYPES)
    (h2 : n.cornersSquareType ∉ Gen1.CORNER_SQUARE_TYPES)
    (h3 : n.cornersDotType ∉ Gen1.CORNER_DOT_TYPES)
    (h4 : Gen1.errorCorrectionLabel n.errorCorrectionLevel = none) :
    (Gen1.tryBody env n).2.any isLabelClick = false := by
  have hbf : (Gen1.bindForm env n).any isLabelClick = false := by
    rw [Bool.eq_false_iff]
    intro hc
    rw [List.any_eq_true] at hc
    obtain ⟨e, he, hpe⟩ := hc
    rcases Gen1.bindForm_no_label h1 h2 h3 h4 e he with ⟨l, v, rfl⟩ | ⟨l, v, rfl⟩ <;>
      cases hpe
  simp only [Gen1.tryBody]
  split
  · rfl
  · split
    · rfl
    · split
      · simp [List.any_append, hbf, Gen1.expandPanels_no_label, isLabelClick]
      · split
        · split <;>
            simp [List.any_append, hbf, Gen1.expandPanels_no_label, isLabelClick]
        · simp [List.any_append, hbf, Gen1.expandPanels_no_label, isLabelClick]

/-- Demo request whose four enum fields all hold unrecognized values. -/
def oBadEnumsDemo : Options :=
  { oDemo with
    dotsType := some "hexagon"
    cornersSquareType := some "blob"
    cornersDotType := some "tri"
    errorCorrectionLevel := some "Z" }

/-- Cooperative generation-2 environment whose file read fails. -/
def envReadFailDemo : Gen2.Env := { env2demo with readOk := false }

/-- Cooperative generation-2 environment with an empty download directory. -/
def envNoFileDemo : Gen2.Env := { env2demo with files := [] }

theorem getBrowser_no_unlink (lk : Bool) (st : SessionSt) :
    (getBrowser lk st).2.2.any isUnlink = false := by
  rcases getBrowser_cases lk st with ⟨h, _, he⟩ | ⟨_, _, he⟩ | ⟨_, _, he⟩ <;>
    rw [he] <;> rfl

/-- C3 counterexample: when the read of the downloaded file fails, the file
is not deleted: the effect trace holds the read but no deletion, so residual
temporary state remains on failure of the read step, contrary to the claim
text. -/
theorem download_read_cleanup_counterexample :
    exceptOk (Gen2.generateQRCode envReadFailDemo oDemo initialSt).1 = false
    ∧ Effect.readFile "/tmp/qr-downloads/qr-code.png"
        ∈ (Gen2.generateQRCode envReadFailDemo oDemo initialSt).2.2
    ∧ (Gen2.generateQRCode envReadFailDemo oDemo initialSt).2.2.any isUnlink
        = false := by
  refine ⟨rfl, by decide, rfl⟩

/-- C3 (amended): download-and-read extraction: the directory is scanned for
a file whose extension matches the requested format with jpeg mapped to jpg;
if none matches the call fails with the missing-artifact error; otherwise
the file is read and, when the read succeeds, deleted before the bytes are
returned; if the read itself fails the error propagates and the file is not
deleted. -/
theorem download_read_extraction (env : Gen2.Env) (o : Options) (st : SessionSt)
    (hd : jsTruthyS o.data = true)
    (hgb : env.launchOk = true ∨ st.browser.isSome = true)
    (hg : env.gotoOk = true) (hw : env.waitReadyOk = true)
    (hbtn : env.hasElem (Gen2.buttonId (destructure o).format) = true) :
    (env.files.find? (fun f => endsWithJs f
        ("." ++ (if (destructure o).format = "jpeg" then "jpg"
                 else (destructure o).format))) = none →
      (Gen2.generateQRCode env o st).1 = .error "Download failed - no file found")
    ∧ (∀ fl, env.files.find? (fun f => endsWithJs f
          ("." ++ (if (destructure o).format = "jpeg" then "jpg"
                   else (destructure o).format))) = some fl →
        env.readOk = true →
        (Gen2.generateQRCode env o st).1 = .ok (.fileBytes env.fileBytes)
        ∧ ∃ t, (Gen2.generateQRCode env o st).2.2
            = t ++ [Effect.readFile (Gen2.downloadPath ++ "/" ++ fl),
                    Effect.unlink (Gen2.downloadPath ++ "/" ++ fl),
                    Effect.closePage])
    ∧ (∀ fl, env.files.find? (fun f => endsWithJs f
          ("." ++ (if (destructure o).format = "jpeg" then "jpg"
                   else (destructure o).format))) = some fl →
        env.readOk = false →
        exceptOk (Gen2.generateQRCode env o st).1 = false
        ∧ (Gen2.generateQRCode env o st).2.2.any isUnlink = false) := by
  refine ⟨?_, ?_, ?_⟩
  · intro hf
    rw [Gen2.generateQRCode_result env o st hd hgb]
    exact Gen2.tryBody_noFile env _ hg hw hbtn hf
  · intro fl hf hr
    obtain ⟨hres, t, hbody⟩ := Gen2.tryBody_ok env (destructure o) fl hg hw hbtn hf hr
    refine ⟨?_, ?_⟩
    · rw [Gen2.generateQRCode_result env o st hd hgb]
      exact hres
    · rw [Gen2.generateQRCode_trace_eq env o st hd hgb, hbody]
      exact ⟨(getBrowser env.launchOk st).2.2 ++ [Effect.newPage] ++ t, by simp⟩
  · intro fl hf hr
    obtain ⟨hres, t, hbody⟩ := Gen2.tryBody_readFail env (destructure o) fl hg hw hbtn hf hr
    refine ⟨?_, ?_⟩
    · rw [Gen2.generateQRCode_result env o st hd hgb]
      exact hres
    · rw [Gen2.generateQRCode_trace_eq env o st hd hgb]
      simp [List.any_append, getBrowser_no_unlink,
        Gen2.tryBody_readFail_no_unlink env (destructure o) fl hg hw hbtn hf hr,
        isUnlink]

/-- C3 amended-theorem witness: the three outcomes at concrete
environments. -/
theorem download_read_extraction_witness :
    (Gen2.generateQRCode envNoFileDemo oDemo initialSt).1
        = .error "Download failed - no file found"
    ∧ (Gen2.generateQRCode env2demo oDemo initialSt).1
        = .ok (.fileBytes env2demo.fileBytes)
    ∧ exceptOk (Gen2.generateQRCode envReadFailDemo oDemo initialSt).1 = false :=
  ⟨(download_read_extraction envNoFileDemo oDemo initialSt rfl (Or.inl rfl)
      rfl rfl rfl).1 rfl,
   ((download_read_extraction env2demo oDemo initialSt rfl (Or.inl rfl)
      rfl rfl rfl).2.1 "qr-code.png" rfl rfl).1,
   ((download_read_extraction envReadFailDemo oDemo initialSt rfl (Or.inl rfl)
      rfl rfl rfl).2.2 "qr-code.png" rfl rfl).1⟩

/-- Demo GET query carrying a non-numeric width parameter. -/
def qNanDemo : Query := { qDemo with width := some "abc" }

theorem Gen2.bindForm_sets_width (env : Gen2.Env) (n : NormOpts)
    (h : env.hasElem "width" = true) :
    Effect.setValue "width" n.width.toJsString ∈ Gen2.bindForm env n := by
  unfold Gen2.bindForm
  simp only [List.mem_append]
  have hmem : Effect.setValue "width" n.width.toJsString
      ∈ Gen2.setInputById env "width" n.width.toJsString := by
    simp [Gen2.setInputById, h]
  tauto

theorem Gen2.tryBody_sets_width (env : Gen2.Env) (n : NormOpts)
    (hg : env.gotoOk = true) (hw : env.waitReadyOk = true)
    (h : env.hasElem "width" = true) :
    Effect.setValue "width" n.width.toJsString ∈ (Gen2.tryBody env n).2 := by
  have hb := Gen2.bindForm_sets_width env n h
  simp only [Gen2.tryBody, hg, hw, Bool.not_true, Bool.false_eq_true, if_false]
  split
  · simp [List.mem_append, hb]
  · split
    · simp [List.mem_append, hb]
    · split <;> simp [List.mem_append, hb]

set_option maxHeartbeats 1000000 in
/-- C10: on GET /generate each numeric query parameter is parsed with
parseInt only when the raw string is truthy (present, non-empty) and left
undefined otherwise; hence an absent or empty parameter falls back to the
documented default, the string 0 is kept as 0, and a non-numeric string
becomes NaN and is forwarded into the form-binding step rather than
rejected. -/
theorem get_numeric_query_parsing (q : Query) (s : String) (hs : s ≠ "")
    (env : Gen2.Env) (st : SessionSt) (fl : String)
    (hgb : env.launchOk = true ∨ st.browser.isSome = true)
    (hg : env.gotoOk = true) (hw : env.waitReadyOk = true)
    (hwidth : env.hasElem "width" = true)
    (hbtn : env.hasElem
        (Gen2.buttonId (destructure (queryToOptions qNanDemo)).format) = true)
    (hfind : env.files.find? (fun f => endsWithJs f
        ("." ++ (if (destructure (queryToOptions qNanDemo)).format = "jpeg"
                 then "jpg" else (destructure (queryToOptions qNanDemo)).format)))
      = some fl)
    (hread : env.readOk = true) :
    ((queryToOptions q).width = numParam q.width
     ∧ (queryToOptions q).height = numParam q.height
     ∧ (queryToOptions q).borderRadius = numParam q.borderRadius
     ∧ (queryToOptions q).margin = numParam q.margin
     ∧ (queryToOptions q).imageMargin = numParam q.imageMargin)
    ∧ numParam (some s) = some (parseIntJS s)
    ∧ numParam (some "") = none
    ∧ numParam none = none
    ∧ (destructure (queryToOptions { q with width := none })).width = .int 300
    ∧ (destructure (queryToOptions { q with width := some "" })).width = .int 300
    ∧ (destructure (queryToOptions { q with width := some "0" })).width = .int 0
    ∧ parseIntJS "abc" = .nan
    ∧ Effect.setValue "width" "NaN"
        ∈ (Gen2.generateQRCode env (queryToOptions qNanDemo) st).2.2
    ∧ exceptOk (Gen2.generateQRCode env (queryToOptions qNanDemo) st).1 = true := by
  refine ⟨⟨rfl, rfl, rfl, rfl, rfl⟩, by simp [numParam, hs], rfl, rfl, rfl, rfl, rfl,
    rfl, ?_, ?_⟩
  · rw [Gen2.generateQRCode_trace_eq env (queryToOptions qNanDemo) st rfl hgb]
    have hmem := Gen2.tryBody_sets_width env (destructure (queryToOptions qNanDemo))
      hg hw hwidth
    simp only [List.append_assoc, List.mem_append]
    exact Or.inr (Or.inr (Or.inl hmem))
  · rw [Gen2.generateQRCode_result env (queryToOptions qNanDemo) st rfl hgb,
      (Gen2.tryBody_ok env _ fl hg hw hbtn hfind hread).1]
    rfl

/-- C10 witness: concrete instantiation with a non-empty numeric parameter
string and the cooperative environment. -/
theorem get_numeric_query_parsing_witness :
    ((queryToOptions qDemo).width = numParam qDemo.width
     ∧ (queryToOptions qDemo).height = numParam qDemo.height
     ∧ (queryToOptions qDemo).borderRadius = numParam qDemo.borderRadius
     ∧ (queryToOptions qDemo).margin = numParam qDemo.margin
     ∧ (queryToOptions qDemo).imageMargin = numParam qDemo.imageMargin)
    ∧ numParam (some "417") = some (parseIntJS "417")
    ∧ numParam (some "") = none
    ∧ numParam none = none
    ∧ (destructure (queryToOptions { qDemo with width := none })).width = .int 300
    ∧ (destructure (queryToOptions { qDemo with width := some "" })).width = .int 300
    ∧ (destructure (queryToOptions { qDemo with width := some "0" })).width = .int 0
    ∧ parseIntJS "abc" = .nan
    ∧ Effect.setValue "width" "NaN"
        ∈ (Gen2.generateQRCode env2demo (queryToOptions qNanDemo) initialSt).2.2
    ∧ exceptOk (Gen2.generateQRCode env2demo (queryToOptions qNanDemo) initialSt).1
        = true :=
  get_numeric_query_parsing qDemo "417" (by decide) env2demo initialSt
    "qr-code.png" (Or.inl rfl) rfl rfl rfl rfl rfl rfl

/-- Whether an effect is a click in the generation-2 dot-type radio group. -/
def isDotsTypeClick : Effect → Bool
  | .clickElem i => startsWithJs i "dotsOptionsType-"
  | _ => false

/-- Whether an effect is a click in the generation-2 corner-square-type radio
group. -/
def isCornersSquareTypeClick : Effect → Bool
  | .clickElem i => startsWithJs i "cornersSquareOptionsType-"
  | _ => false

/-- Whether an effect is a click in the generation-2 corner-dot-type radio
group. -/
def isCornersDotTypeClick : Effect → Bool
  | .clickElem i => startsWithJs i "cornersDotOptionsType-"
  | _ => false

/-- Whether an effect is a click in the generation-2 error-correction radio
group. -/
def isEcLevelClick : Effect → Bool
  | .clickElem i => startsWithJs i "errorCorrectionLevel-"
  | _ => false

/-- Whether an effect is a click on the label whose trimmed text is v. -/
def isLabelClickOn (v : String) : Effect → Bool
  | .clickLabel t => t = v
  | _ => false

/-- The four error-correction label texts of the generation-1 UI. -/
def ecLabelTexts : List String :=
  ["Low (7%)", "Medium (15%)", "High (25%)", "Highest (30%)"]

/-- Whether an effect is a click on one of the generation-1 error-correction
labels. -/
def isEcLabelClick : Effect → Bool
  | .clickLabel t => decide (t ∈ ecLabelTexts)
  | _ => false

/-- Each effect of the generation-2 form binder is a value assignment or the
radio click of one enum field whose value passed that field's membership
guard. -/
theorem Gen2.bindForm_click_shape (env : Gen2.Env) (n : NormOpts) :
    ∀ e ∈ Gen2.bindForm env n,
      (∃ i v, e = .setValue i v)
      ∨ (n.dotsType ∈ Gen2.DOT_TYPES
          ∧ e = .clickElem ("dotsOptionsType-" ++ n.dotsType))
      ∨ (n.cornersSquareType ∈ Gen2.CORNER_SQUARE_TYPES
          ∧ e = .clickElem ("cornersSquareOptionsType-" ++ n.cornersSquareType))
      ∨ (n.cornersDotType ∈ Gen2.CORNER_DOT_TYPES
          ∧ e = .clickElem ("cornersDotOptionsType-" ++ n.cornersDotType))
      ∨ (n.errorCorrectionLevel ∈ Gen2.ERROR_CORRECTION_LEVELS
          ∧ e = .clickElem ("errorCorrectionLevel-" ++ n.errorCorrectionLevel)) := by
  unfold Gen2.bindForm
  repeat' apply all_mem_append
  all_goals intro e he
  · exact Or.inl ⟨_, _, Gen2.mem_setInputById he⟩
  · split at he
    · exact Or.inl ⟨_, _, Gen2.mem_setInputById he⟩
    · simp at he
  · exact Or.inl ⟨_, _, Gen2.mem_setColorById he⟩
  · exact Or.inl ⟨_, _, Gen2.mem_setColorById he⟩
  · split at he
    · exact Or.inl ⟨_, _, Gen2.mem_setColorById he⟩
    · simp at he
  · split at he
    · exact Or.inl ⟨_, _, Gen2.mem_setColorById he⟩
    · simp at he
  · exact Or.inl ⟨_, _, Gen2.mem_setInputById he⟩
  · exact Or.inl ⟨_, _, Gen2.mem_setInputById he⟩
  · exact Or.inl ⟨_, _, Gen2.mem_setInputById he⟩
  · exact Or.inl ⟨_, _, Gen2.mem_setInputById he⟩
  · exact Or.inl ⟨_, _, Gen2.mem_setInputById he⟩
  · split at he
    · rename_i hcond
      exact Or.inr (Or.inl ⟨hcond.2, Gen2.mem_selectRadioById he⟩)
    · simp at he
  · split at he
    · rename_i hcond
      exact Or.inr (Or.inr (Or.inl ⟨hcond.2, Gen2.mem_selectRadioById he⟩))
    · simp at he
  · split at he
    · rename_i hcond
      exact Or.inr (Or.inr (Or.inr (Or.inl ⟨hcond.2, Gen2.mem_selectRadioById he⟩)))
    · simp at he
  · split at he
    · rename_i hcond
      exact Or.inr (Or.inr (Or.inr (Or.inr ⟨hcond.2, Gen2.mem_selectRadioById he⟩)))
    · simp at he

/-- Each effect of the generation-1 form binder is a value assignment, a
typed input, or the label click of one enum field whose value passed that
field's guard (the error-correction click carrying the level's label
text). -/
theorem Gen1.bindForm_click_shape_g1 (env : Gen1.Env) (n : NormOpts) :
    ∀ e ∈ Gen1.bindForm env n,
      (∃ l v, e = .setValue l v) ∨ (∃ l v, e = .typeInto l v)
      ∨ (n.dotsType ∈ Gen1.DOT_TYPES ∧ e = .clickLabel n.dotsType)
      ∨ (n.cornersSquareType ∈ Gen1.CORNER_SQUARE_TYPES
          ∧ e = .clickLabel n.cornersSquareType)
      ∨ (n.cornersDotType ∈ Gen1.CORNER_DOT_TYPES
          ∧ e = .clickLabel n.cornersDotType)
      ∨ (∃ L, Gen1.errorCorrectionLabel n.errorCorrectionLevel = some L
          ∧ e = .clickLabel L) := by
  unfold Gen1.bindForm
  repeat' apply all_mem_append
  all_goals intro e he
  · split at he
    · exact Or.inr (Or.inl ⟨_, _, Gen1.mem_setTextInputByLabel he⟩)
    · simp at he
  · exact Or.inl ⟨_, _, Gen1.mem_setColorInput he⟩
  · exact Or.inl ⟨_, _, Gen1.mem_setColorInput he⟩
  · split at he
    · exact Or.inl ⟨_, _, Gen1.mem_setColorInput he⟩
    · simp at he
  · split at he
    · exact Or.inl ⟨_, _, Gen1.mem_setColorInput he⟩
    · simp at he
  · exact Or.inr (Or.inl ⟨_, _, Gen1.mem_setTextInputByLabel he⟩)
  · exact Or.inr (Or.inl ⟨_, _, Gen1.mem_setTextInputByLabel he⟩)
  · exact Or.inr (Or.inl ⟨_, _, Gen1.mem_setTextInputByLabel he⟩)
  · exact Or.inr (Or.inl ⟨_, _, Gen1.mem_setTextInputByLabel he⟩)
  · exact Or.inr (Or.inl ⟨_, _, Gen1.mem_setTextInputByLabel he⟩)
  · split at he
    · rename_i hcond
      exact Or.inr (Or.inr (Or.inl ⟨hcond.2, Gen1.mem_selectRadioOption he⟩))
    · simp at he
  · split at he
    · rename_i hcond
      exact Or.inr (Or.inr (Or.inr (Or.inl ⟨hcond.2, Gen1.mem_selectRadioOption he⟩)))
    · simp at he
  · split at he
    · rename_i hcond
      exact Or.inr (Or.inr (Or.inr (Or.inr (Or.inl
        ⟨hcond.2, Gen1.mem_selectRadioOption he⟩))))
    · simp at he
  · split at he
    · split at he
      · rename_i L hL
        exact Or.inr (Or.inr (Or.inr (Or.inr (Or.inr
          ⟨L, hL, Gen1.mem_selectRadioOption he⟩))))
      · simp at he
    · simp at he

theorem Gen2.bindForm_any_dots (env : Gen2.Env) (n : NormOpts)
    (h : n.dotsType ∉ Gen2.DOT_TYPES) :
    (Gen2.bindForm env n).any isDotsTypeClick = false := by
  rw [Bool.eq_false_iff]
  intro hc
  rw [List.any_eq_true] at hc
  obtain ⟨e, he, hp⟩ := hc
  rcases Gen2.bindForm_click_shape env n e he with
    ⟨i, v, rfl⟩ | ⟨hm, rfl⟩ | ⟨hm, rfl⟩ | ⟨hm, rfl⟩ | ⟨hm, rfl⟩
  · exact Bool.noConfusion hp
  · exact h hm
  · exact Bool.noConfusion hp
  · exact Bool.noConfusion hp
  · exact Bool.noConfusion hp

theorem Gen2.bindForm_any_cornersSquare (env : Gen2.Env) (n : NormOpts)
    (h : n.cornersSquareType ∉ Gen2.CORNER_SQUARE_TYPES) :
    (Gen2.bindForm env n).any isCornersSquareTypeClick = false := by
  rw [Bool.eq_false_iff]
  intro hc
  rw [List.any_eq_true] at hc
  obtain ⟨e, he, hp⟩ := hc
  rcases Gen2.bindForm_click_shape env n e he with
    ⟨i, v, rfl⟩ | ⟨hm, rfl⟩ | ⟨hm, rfl⟩ | ⟨hm, rfl⟩ | ⟨hm, rfl⟩
  · exact Bool.noConfusion hp
  · exact Bool.noConfusion hp
  · exact h hm
  · exact Bool.noConfusion hp
  · exact Bool.noConfusion hp

theorem Gen2.bindForm_any_cornersDot (env : Gen2.Env) (n : NormOpts)
    (h : n.cornersDotType ∉ Gen2.CORNER_DOT_TYPES) :
    (Gen2.bindForm env n).any isCornersDotTypeClick = false := by
  rw [Bool.eq_false_iff]
  intro hc
  rw [List.any_eq_true] at hc
  obtain ⟨e, he, hp⟩ := hc
  rcases Gen2.bindForm_click_shape env n e he with
    ⟨i, v, rfl⟩ | ⟨hm, rfl⟩ | ⟨hm, rfl⟩ | ⟨hm, rfl⟩ | ⟨hm, rfl⟩
  · exact Bool.noConfusion hp
  · exact Bool.noConfusion hp
  · exact Bool.noConfusion hp
  · exact h hm
  · exact Bool.noConfusion hp

theorem Gen2.bindForm_any_ecLevel (env : Gen2.Env) (n : NormOpts)
    (h : n.errorCorrectionLevel ∉ Gen2.ERROR_CORRECTION_LEVELS) :
    (Gen2.bindForm env n).any isEcLevelClick = false := by
  rw [Bool.eq_false_iff]
  intro hc
  rw [List.any_eq_true] at hc
  obtain ⟨e, he, hp⟩ := hc
  rcases Gen2.bindForm_click_shape env n e he with
    ⟨i, v, rfl⟩ | ⟨hm, rfl⟩ | ⟨hm, rfl⟩ | ⟨hm, rfl⟩ | ⟨hm, rfl⟩
  · exact Bool.noConfusion hp
  · exact Bool.noConfusion hp
  · exact Bool.noConfusion hp
  · exact Bool.noConfusion hp
  · exact h hm

theorem corner_square_types_eq_dot_types :
    Gen1.CORNER_SQUARE_TYPES = Gen1.DOT_TYPES := rfl

theorem dot_types_ecLabels_disjoint {v : String}
    (h1 : v ∈ Gen1.DOT_TYPES) (h2 : v ∈ ecLabelTexts) : False := by
  simp [Gen1.DOT_TYPES] at h1
  rcases h1 with rfl | rfl | rfl | rfl | rfl | rfl <;> simp [ecLabelTexts] at h2

theorem corner_dot_types_ecLabels_disjoint {v : String}
    (h1 : v ∈ Gen1.CORNER_DOT_TYPES) (h2 : v ∈ ecLabelTexts) : False := by
  simp [Gen1.CORNER_DOT_TYPES] at h1
  rcases h1 with rfl | rfl | rfl <;> simp [ecLabelTexts] at h2

theorem Gen1.bindForm_any_dots_g1 (env : Gen1.Env) (n : NormOpts)
    (h : n.dotsType ∉ Gen1.DOT_TYPES)
    (hcd : n.cornersDotType ∈ Gen1.CORNER_DOT_TYPES →
        n.dotsType ≠ n.cornersDotType)
    (hec : ∀ L, Gen1.errorCorrectionLabel n.errorCorrectionLevel = some L →
        n.dotsType ≠ L) :
    (Gen1.bindForm env n).any (isLabelClickOn n.dotsType) = false := by
  rw [Bool.eq_false_iff]
  intro hc
  rw [List.any_eq_true] at hc
  obtain ⟨e, he, hp⟩ := hc
  rcases Gen1.bindForm_click_shape_g1 env n e he with
    ⟨l, v, rfl⟩ | ⟨l, v, rfl⟩ | ⟨hm, rfl⟩ | ⟨hm, rfl⟩ | ⟨hm, rfl⟩ | ⟨L, hL, rfl⟩
  · exact Bool.noConfusion hp
  · exact Bool.noConfusion hp
  · exact h hm
  · have heq : n.cornersSquareType = n.dotsType := by simpa [isLabelClickOn] using hp
    rw [corner_square_types_eq_dot_types, heq] at hm
    exact h hm
  · have heq : n.cornersDotType = n.dotsType := by simpa [isLabelClickOn] using hp
    exact hcd hm heq.symm
  · have heq : L = n.dotsType := by simpa [isLabelClickOn] using hp
    exact hec L hL heq.symm

theorem Gen1.bindForm_any_cornersSquare_g1 (env : Gen1.Env) (n : NormOpts)
    (h : n.cornersSquareType ∉ Gen1.CORNER_SQUARE_TYPES)
    (hcd : n.cornersDotType ∈ Gen1.CORNER_DOT_TYPES →
        n.cornersSquareType ≠ n.cornersDotType)
    (hec : ∀ L, Gen1.errorCorrectionLabel n.errorCorrectionLevel = some L →
        n.cornersSquareType ≠ L) :
    (Gen1.bindForm env n).any (isLabelClickOn n.cornersSquareType) = false := by
  rw [Bool.eq_false_iff]
  intro hc
  rw [List.any_eq_true] at hc
  obtain ⟨e, he, hp⟩ := hc
  rcases Gen1.bindForm_click_shape_g1 env n e he with
    ⟨l, v, rfl⟩ | ⟨l, v, rfl⟩ | ⟨hm, rfl⟩ | ⟨hm, rfl⟩ | ⟨hm, rfl⟩ | ⟨L, hL, rfl⟩
  · exact Bool.noConfusion hp
  · exact Bool.noConfusion hp
  · have heq : n.dotsType = n.cornersSquareType := by simpa [isLabelClickOn] using hp
    rw [← corner_square_types_eq_dot_types, heq] at hm
    exact h hm
  · exact h hm
  · have heq : n.cornersDotType = n.cornersSquareType := by
      simpa [isLabelClickOn] using hp
    exact hcd hm heq.symm
  · have heq : L = n.cornersSquareType := by simpa [isLabelClickOn] using hp
    exact hec L hL heq.symm

theorem Gen1.bindForm_any_cornersDot_g1 (env : Gen1.Env) (n : NormOpts)
    (h : n.cornersDotType ∉ Gen1.CORNER_DOT_TYPES)
    (hdt : n.dotsType ∈ Gen1.DOT_TYPES → n.cornersDotType ≠ n.dotsType)
    (hcs : n.cornersSquareType ∈ Gen1.CORNER_SQUARE_TYPES →
        n.cornersDotType ≠ n.cornersSquareType)
    (hec : ∀ L, Gen1.errorCorrectionLabel n.errorCorrectionLevel = some L →
        n.cornersDotType ≠ L) :
    (Gen1.bindForm env n).any (isLabelClickOn n.cornersDotType) = false := by
  rw [Bool.eq_false_iff]
  intro hc
  rw [List.any_eq_true] at hc
  obtain ⟨e, he, hp⟩ := hc
  rcases Gen1.bindForm_click_shape_g1 env n e he with
    ⟨l, v, rfl⟩ | ⟨l, v, rfl⟩ | ⟨hm, rfl⟩ | ⟨hm, rfl⟩ | ⟨hm, rfl⟩ | ⟨L, hL, rfl⟩
  · exact Bool.noConfusion hp
  · exact Bool.noConfusion hp
  · have heq : n.dotsType = n.cornersDotType := by simpa [isLabelClickOn] using hp
    exact hdt hm heq.symm
  · have heq : n.cornersSquareType = n.cornersDotType := by
      simpa [isLabelClickOn] using hp
    exact hcs hm heq.symm
  · exact h hm
  · have heq : L = n.cornersDotType := by simpa [isLabelClickOn] using hp
    exact hec L hL heq.symm

theorem Gen1.bindForm_any_ecLabel (env : Gen1.Env) (n : NormOpts)
    (h : n.errorCorrectionLevel ∉ Gen2.ERROR_CORRECTION_LEVELS) :
    (Gen1.bindForm env n).any isEcLabelClick = false := by
  have hnone := Gen1.errorCorrectionLabel_eq_none h
  rw [Bool.eq_false_iff]
  intro hc
  rw [List.any_eq_true] at hc
  obtain ⟨e, he, hp⟩ := hc
  rcases Gen1.bindForm_click_shape_g1 env n e he with
    ⟨l, v, rfl⟩ | ⟨l, v, rfl⟩ | ⟨hm, rfl⟩ | ⟨hm, rfl⟩ | ⟨hm, rfl⟩ | ⟨L, hL, rfl⟩
  · exact Bool.noConfusion hp
  · exact Bool.noConfusion hp
  · have hmem : n.dotsType ∈ ecLabelTexts := by simpa [isEcLabelClick] using hp
    exact dot_types_ecLabels_disjoint hm hmem
  · have hmem : n.cornersSquareType ∈ ecLabelTexts := by
      simpa [isEcLabelClick] using hp
    exact dot_types_ecLabels_disjoint
      (corner_square_types_eq_dot_types ▸ hm) hmem
  · have hmem : n.cornersDotType ∈ ecLabelTexts := by simpa [isEcLabelClick] using hp
    exact corner_dot_types_ecLabels_disjoint hm hmem
  · rw [hnone] at hL
    cases hL

theorem Gen2.buttonId_not_dots (fmt : String) :
    isDotsTypeClick (.clickElem (Gen2.buttonId fmt)) = false := by
  unfold Gen2.buttonId
  split
  · rfl
  · split <;> rfl

theorem Gen2.buttonId_not_cornersSquare (fmt : String) :
    isCornersSquareTypeClick (.clickElem (Gen2.buttonId fmt)) = false := by
  unfold Gen2.buttonId
  split
  · rfl
  · split <;> rfl

theorem Gen2.buttonId_not_cornersDot (fmt : String) :
    isCornersDotTypeClick (.clickElem (Gen2.buttonId fmt)) = false := by
  unfold Gen2.buttonId
  split
  · rfl
  · split <;> rfl

theorem Gen2.buttonId_not_ecLevel (fmt : String) :
    isEcLevelClick (.clickElem (Gen2.buttonId fmt)) = false := by
  unfold Gen2.buttonId
  split
  · rfl
  · split <;> rfl

theorem Gen1.expandPanels_any_false (k : Nat) (p : Effect → Bool)
    (h1 : ∀ i, p (.clickPanel i) = false) (h2 : p (.sleep 200) = false) :
    (Gen1.expandPanels k).any p = false := by
  induction k with
  | zero => rfl
  | succ m ih => simp [Gen1.expandPanels, List.any_append, ih, h1, h2]

theorem getBrowser_any_false (lk : Bool) (st : SessionSt) (p : Effect → Bool)
    (h1 : p .launch = false) (h2 : p .launchFail = false) :
    (getBrowser lk st).2.2.any p = false := by
  rcases getBrowser_cases lk st with ⟨h, _, he⟩ | ⟨_, _, he⟩ | ⟨_, _, he⟩ <;>
    rw [he] <;> simp [h1, h2]

theorem Gen2.tryBody_skips_dots (env : Gen2.Env) (n : NormOpts)
    (h : n.dotsType ∉ Gen2.DOT_TYPES) :
    (Gen2.tryBody env n).2.any isDotsTypeClick = false := by
  have hbf := Gen2.bindForm_any_dots env n h
  simp only [Gen2.tryBody]
  split
  · rfl
  · split
    · rfl
    · split
      · simp [List.any_append, hbf, isDotsTypeClick]
      · split
        · simp only [List.any_append, List.any_cons, List.any_nil,
            Gen2.buttonId_not_dots, hbf]
          simp [isDotsTypeClick]
        · split <;>
            · simp only [List.any_append, List.any_cons, List.any_nil,
                Gen2.buttonId_not_dots, hbf]
              simp [isDotsTypeClick]

theorem Gen2.tryBody_skips_cornersSquare (env : Gen2.Env) (n : NormOpts)
    (h : n.cornersSquareType ∉ Gen2.CORNER_SQUARE_TYPES) :
    (Gen2.tryBody env n).2.any isCornersSquareTypeClick = false := by
  have hbf := Gen2.bindForm_any_cornersSquare env n h
  simp only [Gen2.tryBody]
  split
  · rfl
  · split
    · rfl
    · split
      · simp [List.any_append, hbf, isCornersSquareTypeClick]
      · split
        · simp only [List.any_append, List.any_cons, List.any_nil,
            Gen2.buttonId_not_cornersSquare, hbf]
          simp [isCornersSquareTypeClick]
        · split <;>
            · simp only [List.any_append, List.any_cons, List.any_nil,
                Gen2.buttonId_not_cornersSquare, hbf]
              simp [isCornersSquareTypeClick]

theorem Gen2.tryBody_skips_cornersDot (env : Gen2.Env) (n : NormOpts)
    (h : n.cornersDotType ∉ Gen2.CORNER_DOT_TYPES) :
    (Gen2.tryBody env n).2.any isCornersDotTypeClick = false := by
  have hbf := Gen2.bindForm_any_cornersDot env n h
  simp only [Gen2.tryBody]
  split
  · rfl
  · split
    · rfl
    · split
      · simp [List.any_append, hbf, isCornersDotTypeClick]
      · split
        · simp only [List.any_append, List.any_cons, List.any_nil,
            Gen2.buttonId_not_cornersDot, hbf]
          simp [isCornersDotTypeClick]
        · split <;>
            · simp only [List.any_append, List.any_cons, List.any_nil,
                Gen2.buttonId_not_cornersDot, hbf]
              simp [isCornersDotTypeClick]

theorem Gen2.tryBody_skips_ecLevel (env : Gen2.Env) (n : NormOpts)
    (h : n.errorCorrectionLevel ∉ Gen2.ERROR_CORRECTION_LEVELS) :
    (Gen2.tryBody env n).2.any isEcLevelClick = false := by
  have hbf := Gen2.bindForm_any_ecLevel env n h
  simp only [Gen2.tryBody]
  split
  · rfl
  · split
    · rfl
    · split
      · simp [List.any_append, hbf, isEcLevelClick]
      · split
        · simp only [List.any_append, List.any_cons, List.any_nil,
            Gen2.buttonId_not_ecLevel, hbf]
          simp [isEcLevelClick]
        · split <;>
            · simp only [List.any_append, List.any_cons, List.any_nil,
                Gen2.buttonId_not_ecLevel, hbf]
              simp [isEcLevelClick]

theorem Gen1.tryBody_skips_dots_g1 (env : Gen1.Env) (n : NormOpts)
    (h : n.dotsType ∉ Gen1.DOT_TYPES)
    (hcd : n.cornersDotType ∈ Gen1.CORNER_DOT_TYPES →
        n.dotsType ≠ n.cornersDotType)
    (hec : ∀ L, Gen1.errorCorrectionLabel n.errorCorrectionLevel = some L →
        n.dotsType ≠ L) :
    (Gen1.tryBody env n).2.any (isLabelClickOn n.dotsType) = false := by
  have hbf := Gen1.bindForm_any_dots_g1 env n h hcd hec
  have hep := Gen1.expandPanels_any_false env.closedPanels
    (isLabelClickOn n.dotsType) (fun i => rfl) rfl
  simp only [Gen1.tryBody]
  split
  · rfl
  · split
    · rfl
    · split
      · simp [List.any_append, hbf, hep, isLabelClickOn]
      · split
        · split
          · simp [List.any_append, hbf, hep, isLabelClickOn]
          · simp [List.any_append, hbf, hep, isLabelClickOn]
        · simp [List.any_append, hbf, hep, isLabelClickOn]

theorem Gen1.tryBody_skips_cornersSquare_g1 (env : Gen1.Env) (n : NormOpts)
    (h : n.cornersSquareType ∉ Gen1.CORNER_SQUARE_TYPES)
    (hcd : n.cornersDotType ∈ Gen1.CORNER_DOT_TYPES →
        n.cornersSquareType ≠ n.cornersDotType)
    (hec : ∀ L, Gen1.errorCorrectionLabel n.errorCorrectionLevel = some L →
        n.cornersSquareType ≠ L) :
    (Gen1.tryBody env n).2.any (isLabelClickOn n.cornersSquareType) = false := by
  have hbf := Gen1.bindForm_any_cornersSquare_g1 env n h hcd hec
  have hep := Gen1.expandPanels_any_false env.closedPanels
    (isLabelClickOn n.cornersSquareType) (fun i => rfl) rfl
  simp only [Gen1.tryBody]
  split
  · rfl
  · split
    · rfl
    · split
      · simp [List.any_append, hbf, hep, isLabelClickOn]
      · split
        · split
          · simp [List.any_append, hbf, hep, isLabelClickOn]
          · simp [List.any_append, hbf, hep, isLabelClickOn]
        · simp [List.any_append, hbf, hep, isLabelClickOn]

theorem Gen1.tryBody_skips_cornersDot_g1 (env : Gen1.Env) (n : NormOpts)
    (h : n.cornersDotType ∉ Gen1.CORNER_DOT_TYPES)
    (hdt : n.dotsType ∈ Gen1.DOT_TYPES → n.cornersDotType ≠ n.dotsType)
    (hcs : n.cornersSquareType ∈ Gen1.CORNER_SQUARE_TYPES →
        n.cornersDotType ≠ n.cornersSquareType)
    (hec : ∀ L, Gen1.errorCorrectionLabel n.errorCorrectionLevel = some L →
        n.cornersDotType ≠ L) :
    (Gen1.tryBody env n).2.any (isLabelClickOn n.cornersDotType) = false := by
  have hbf := Gen1.bindForm_any_cornersDot_g1 env n h hdt hcs hec
  have hep := Gen1.expandPanels_any_false env.closedPanels
    (isLabelClickOn n.cornersDotType) (fun i => rfl) rfl
  simp only [Gen1.tryBody]
  split
  · rfl
  · split
    · rfl
    · split
      · simp [List.any_append, hbf, hep, isLabelClickOn]
      · split
        · split
          · simp [List.any_append, hbf, hep, isLabelClickOn]
          · simp [List.any_append, hbf, hep, isLabelClickOn]
        · simp [List.any_append, hbf, hep, isLabelClickOn]

theorem Gen1.tryBody_skips_ecLabel (env : Gen1.Env) (n : NormOpts)
    (h : n.errorCorrectionLevel ∉ Gen2.ERROR_CORRECTION_LEVELS) :
    (Gen1.tryBody env n).2.any isEcLabelClick = false := by
  have hbf := Gen1.bindForm_any_ecLabel env n h
  have hep := Gen1.expandPanels_any_false env.closedPanels
    isEcLabelClick (fun i => rfl) rfl
  simp only [Gen1.tryBody]
  split
  · rfl
  · split
    · rfl
    · split
      · simp [List.any_append, hbf, hep, isEcLabelClick]
      · split
        · split
          · simp [List.any_append, hbf, hep, isEcLabelClick]
          · simp [List.any_append, hbf, hep, isEcLabelClick]
        · simp [List.any_append, hbf, hep, isEcLabelClick]

/-- Demo request whose dotsType alone holds an unrecognized value, the other
enum fields staying at their recognized defaults. -/
def oHexDemo : Options := { oDemo with dotsType := some "hexagon" }

/-- C2: for every enum-valued field (dotsType, cornersSquareType,
cornersDotType, errorCorrectionLevel) taken separately, a value outside the
recognized variant set for that field in the active build does not raise an
error: the corresponding UI interaction is skipped (generation 2: no click
in that field's radio-id group; generation 1: no click on the label carrying
that value, provided the value does not coincide with a label another enum
field legitimately clicks, since generation-1 controls are addressed by
label text; for the error-correction field: no click on any level label)
while the request otherwise proceeds and succeeds in both builds under a
cooperating environment. -/
theorem unknown_enum_value_skipped_per_field (env : Gen2.Env) (env1 : Gen1.Env)
    (o : Options) (st st1 : SessionSt) (fl : String)
    (hd : jsTruthyS o.data = true)
    (hgb : env.launchOk = true ∨ st.browser.isSome = true)
    (hg : env.gotoOk = true) (hw : env.waitReadyOk = true)
    (hbtn : env.hasElem (Gen2.buttonId (destructure o).format) = true)
    (hfind : env.files.find?
        (fun f => endsWithJs f
          ("." ++ (if (destructure o).format = "jpeg" then "jpg"
                   else (destructure o).format))) = some fl)
    (hread : env.readOk = true)
    (hgb1 : env1.launchOk = true ∨ st1.browser.isSome = true)
    (hg1 : env1.gotoOk = true) (hw1 : env1.waitOk = true)
    (hq1 : env1.qrContainerPresent = true)
    (hsv : (destructure o).format = "svg" → env1.svgContent.isSome = true) :
    exceptOk (Gen2.generateQRCode env o st).1 = true
    ∧ ((destructure o).dotsType ∉ Gen2.DOT_TYPES →
        (Gen2.generateQRCode env o st).2.2.any isDotsTypeClick = false)
    ∧ ((destructure o).cornersSquareType ∉ Gen2.CORNER_SQUARE_TYPES →
        (Gen2.generateQRCode env o st).2.2.any isCornersSquareTypeClick = false)
    ∧ ((destructure o).cornersDotType ∉ Gen2.CORNER_DOT_TYPES →
        (Gen2.generateQRCode env o st).2.2.any isCornersDotTypeClick = false)
    ∧ ((destructure o).errorCorrectionLevel ∉ Gen2.ERROR_CORRECTION_LEVELS →
        (Gen2.generateQRCode env o st).2.2.any isEcLevelClick = false)
    ∧ exceptOk (Gen1.generateQRCode env1 o st1).1 = true
    ∧ ((destructure o).dotsType ∉ Gen1.DOT_TYPES →
        ((destructure o).cornersDotType ∈ Gen1.CORNER_DOT_TYPES →
          (destructure o).dotsType ≠ (destructure o).cornersDotType) →
        (∀ L, Gen1.errorCorrectionLabel (destructure o).errorCorrectionLevel
            = some L → (destructure o).dotsType ≠ L) →
        (Gen1.generateQRCode env1 o st1).2.2.any
          (isLabelClickOn (destructure o).dotsType) = false)
    ∧ ((destructure o).cornersSquareType ∉ Gen1.CORNER_SQUARE_TYPES →
        ((destructure o).cornersDotType ∈ Gen1.CORNER_DOT_TYPES →
          (destructure o).cornersSquareType ≠ (destructure o).cornersDotType) →
        (∀ L, Gen1.errorCorrectionLabel (destructure o).errorCorrectionLevel
            = some L → (destructure o).cornersSquareType ≠ L) →
        (Gen1.generateQRCode env1 o st1).2.2.any
          (isLabelClickOn (destructure o).cornersSquareType) = false)
    ∧ ((destructure o).cornersDotType ∉ Gen1.CORNER_DOT_TYPES →
        ((destructure o).dotsType ∈ Gen1.DOT_TYPES →
          (destructure o).cornersDotType ≠ (destructure o).dotsType) →
        ((destructure o).cornersSquareType ∈ Gen1.CORNER_SQUARE_TYPES →
          (destructure o).cornersDotType ≠ (destructure o).cornersSquareType) →
        (∀ L, Gen1.errorCorrectionLabel (destructure o).errorCorrectionLevel
            = some L → (destructure o).cornersDotType ≠ L) →
        (Gen1.generateQRCode env1 o st1).2.2.any
          (isLabelClickOn (destructure o).cornersDotType) = false)
    ∧ ((destructure o).errorCorrectionLevel ∉ Gen2.ERROR_CORRECTION_LEVELS →
        (Gen1.generateQRCode env1 o st1).2.2.any isEcLabelClick = false) := by
  refine ⟨?_, ?_, ?_, ?_, ?_, ?_, ?_, ?_, ?_, ?_⟩
  · rw [Gen2.generateQRCode_result env o st hd hgb,
      (Gen2.tryBody_ok env _ fl hg hw hbtn hfind hread).1]
    rfl
  · intro h
    rw [Gen2.generateQRCode_trace_eq env o st hd hgb]
    simp [List.any_append, getBrowser_any_false env.launchOk st isDotsTypeClick rfl rfl,
      Gen2.tryBody_skips_dots env _ h, isDotsTypeClick]
  · intro h
    rw [Gen2.generateQRCode_trace_eq env o st hd hgb]
    simp [List.any_append,
      getBrowser_any_false env.launchOk st isCornersSquareTypeClick rfl rfl,
      Gen2.tryBody_skips_cornersSquare env _ h, isCornersSquareTypeClick]
  · intro h
    rw [Gen2.generateQRCode_trace_eq env o st hd hgb]
    simp [List.any_append,
      getBrowser_any_false env.launchOk st isCornersDotTypeClick rfl rfl,
      Gen2.tryBody_skips_cornersDot env _ h, isCornersDotTypeClick]
  · intro h
    rw [Gen2.generateQRCode_trace_eq env o st hd hgb]
    simp [List.any_append, getBrowser_any_false env.launchOk st isEcLevelClick rfl rfl,
      Gen2.tryBody_skips_ecLevel env _ h, isEcLevelClick]
  · rw [Gen1.generateQRCode_result_g1 env1 o st1 hd hgb1]
    by_cases hsvg : (destructure o).format = "svg"
    · obtain ⟨s, hs⟩ := Option.isSome_iff_exists.mp (hsv hsvg)
      rw [Gen1.tryBody_svg_some env1 _ s hg1 hw1 hq1 hsvg hs]
      rfl
    · rw [Gen1.tryBody_raster env1 _ hg1 hw1 hq1 hsvg]
      rfl
  · intro h hcd hec
    rw [Gen1.generateQRCode_trace_eq_g1 env1 o st1 hd hgb1]
    simp [List.any_append,
      getBrowser_any_false env1.launchOk st1 (isLabelClickOn _) rfl rfl,
      Gen1.tryBody_skips_dots_g1 env1 _ h hcd hec, isLabelClickOn]
  · intro h hcd hec
    rw [Gen1.generateQRCode_trace_eq_g1 env1 o st1 hd hgb1]
    simp [List.any_append,
      getBrowser_any_false env1.launchOk st1 (isLabelClickOn _) rfl rfl,
      Gen1.tryBody_skips_cornersSquare_g1 env1 _ h hcd hec, isLabelClickOn]
  · intro h hdt hcs hec
    rw [Gen1.generateQRCode_trace_eq_g1 env1 o st1 hd hgb1]
    simp [List.any_append,
      getBrowser_any_false env1.launchOk st1 (isLabelClickOn _) rfl rfl,
      Gen1.tryBody_skips_cornersDot_g1 env1 _ h hdt hcs hec, isLabelClickOn]
  · intro h
    rw [Gen1.generateQRCode_trace_eq_g1 env1 o st1 hd hgb1]
    simp [List.any_append,
      getBrowser_any_false env1.launchOk st1 isEcLabelClick rfl rfl,
      Gen1.tryBody_skips_ecLabel env1 _ h, isEcLabelClick]

/-- C2 witness: dotsType hexagon alone (other enum fields at their
recognized defaults) succeeds in both builds with no dot-type radio click
and no hexagon label click. -/
theorem unknown_enum_value_skipped_per_field_witness :
    exceptOk (Gen2.generateQRCode env2demo oHexDemo initialSt).1 = true
    ∧ (Gen2.generateQRCode env2demo oHexDemo initialSt).2.2.any isDotsTypeClick
        = false
    ∧ exceptOk (Gen1.generateQRCode env1demo oHexDemo initialSt).1 = true
    ∧ (Gen1.generateQRCode env1demo oHexDemo initialSt).2.2.any
        (isLabelClickOn (destructure oHexDemo).dotsType) = false := by
  have main := unknown_enum_value_skipped_per_field env2demo env1demo oHexDemo
    initialSt initialSt "qr-code.png" rfl (Or.inl rfl) rfl rfl rfl rfl rfl
    (Or.inl rfl) rfl rfl rfl (fun _ => rfl)
  exact ⟨main.1, main.2.1 (by decide), main.2.2.2.2.2.1,
    main.2.2.2.2.2.2.1 (by decide) (by decide)
      (fun L hL => by
        rw [show Gen1.errorCorrectionLabel (destructure oHexDemo).errorCorrectionLevel
            = some "Medium (15%)" from rfl] at hL
        injection hL with h2
        subst h2
        decide)⟩
